import Mathlib

/-!
Verification of the secure-payment-gateway ledger engine, authenticity
pipeline, idempotency layer and webhook dispatcher, as a shallow embedding
of the Go sources (internal/service/payment_service.go,
internal/service/webhook_service.go, the HMAC middleware and the
redis nonce store) into Lean.

Machine integers: Go `int64` values are modelled as `Int` together with an
explicit wrap into the two's-complement range where the Go code performs
arithmetic.  Ciphertexts and serialized response bytes are modelled as type
parameters `C` and `B`, with the AEAD service and json marshalling provided
by an `Oracle` record; every fallible external call of the service gets an
explicit outcome in the `Env` record, mirroring the Go call sites in order.
-/

namespace Gateway

/-- Lower bound of Go's int64. -/
def i64min : Int := -(2 ^ 63)

/-- Upper bound of Go's int64. -/
def i64max : Int := 2 ^ 63 - 1

/-- Two's-complement wrap of an integer into the int64 range, the result of
Go arithmetic on int64 values. -/
def wrap64 (x : Int) : Int := (x + 2 ^ 63) % 2 ^ 64 - 2 ^ 63

/-- Decimal rendering of an integer, the model of Go's
`strconv.FormatInt(v, 10)`. -/
def intStr (v : Int) : String := toString v

/-- Value of a decimal digit character, `none` on any other character. -/
def digitVal? (c : Char) : Option Nat :=
  if '0' ≤ c ∧ c ≤ '9' then some (c.toNat - '0'.toNat) else none

/-- Accumulate a non-empty all-digit character list into a natural number;
`none` when the list is empty or contains a non-digit.  Models the digit
loop of Go's `strconv.ParseUint` in base 10. -/
def parseNatDigits (l : List Char) : Option Nat :=
  if l.isEmpty then none
  else l.foldl (fun acc c => acc.bind fun n => (digitVal? c).map fun d => n * 10 + d) (some 0)

/-- Signed-magnitude assembly with int64 range check, the tail of Go's
`strconv.ParseInt` after the sign has been split off. -/
def parseInt64Core (neg : Bool) (digits : List Char) : Option Int :=
  match parseNatDigits digits with
  | none => none
  | some n =>
    let v : Int := if neg then -(n : Int) else (n : Int)
    if i64min ≤ v ∧ v ≤ i64max then some v else none

/-- Model of Go's `strconv.ParseInt(s, 10, 64)`: optional sign, decimal
digits, failure on malformed input or on a value outside the int64 range. -/
def parseInt64 (s : String) : Option Int :=
  match s.data with
  | [] => none
  | c :: rest =>
    if c = '-' then parseInt64Core true rest
    else if c = '+' then parseInt64Core false rest
    else parseInt64Core false (c :: rest)

/-! ## Domain model (internal/core/domain) -/

/-- Kind of money movement, `domain.TransactionType`. -/
inductive TransactionType
  | payment
  | refund
  | topup
deriving DecidableEq

/-- Lifecycle state of a transaction, `domain.TransactionStatus`. -/
inductive TransactionStatus
  | pending
  | success
  | failed
  | reversed
deriving DecidableEq

/-- Ledger entry, `domain.Transaction`.  UUIDs are modelled as strings;
timestamps as unix seconds; the AEAD-sealed amount has the ciphertext type
`C`. -/
structure Transaction (C : Type) where
  id : String
  referenceID : String
  merchantID : String
  walletID : String
  amount : Int
  amountEncrypted : C
  transactionType : TransactionType
  status : TransactionStatus
  signature : String
  clientIP : String
  extraData : Option String
  originalTransactionID : Option String
  createdAt : Int
  processedAt : Option Int
deriving DecidableEq

/-- Go `Transaction.IsRefundable`: refundable iff a successful payment. -/
def Transaction.isRefundable {C : Type} (t : Transaction C) : Bool :=
  t.transactionType = TransactionType.payment ∧ t.status = TransactionStatus.success

/-- Merchant currency wallet, `domain.Wallet`, balance kept sealed. -/
structure Wallet (C : Type) where
  id : String
  merchantID : String
  currency : String
  encryptedBalance : C
deriving DecidableEq

/-- Durable idempotency record, `domain.IdempotencyLog`; the serialized
response has the bytes type `B`. -/
structure IdempotencyLog (B : Type) where
  key : String
  transactionID : String
  responseJSON : B
  createdAt : Int
deriving DecidableEq

/-- Go `domain.BuildIdempotencyKey`. -/
def buildIdempotencyKey (merchantID referenceID : String) : String :=
  merchantID ++ ":" ++ referenceID

/-- Go `domain.BuildRefundIdempotencyKey`. -/
def buildRefundIdempotencyKey (merchantID originalReferenceID : String) : String :=
  merchantID ++ ":refund:" ++ originalReferenceID

/-! ## Error taxonomy (pkg/apperror) -/

/-- Structured application error, `apperror.AppError` (the wrapped internal
cause carries no control flow and is dropped). -/
structure AppError where
  code : String
  message : String
  httpStatus : Nat
deriving DecidableEq

def errInsufficientFunds : AppError :=
  ⟨"PAY_001", "Insufficient balance in wallet", 402⟩

def errInvalidAmount : AppError :=
  ⟨"PAY_002", "Invalid amount", 400⟩

def errDuplicateTransaction : AppError :=
  ⟨"PAY_003", "Duplicate transaction", 409⟩

def errNotFound (entity : String) : AppError :=
  ⟨"PAY_004", entity ++ " not found", 404⟩

def errInvalidRefund : AppError :=
  ⟨"PAY_006", "Original transaction not eligible for refund", 400⟩

def errRefundAmountExceedsOriginal : AppError :=
  ⟨"PAY_007", "Refund amount exceeds original transaction amount", 400⟩

def errInvalidAccessKey : AppError :=
  ⟨"SEC_001", "Invalid access key", 401⟩

def errInvalidSignature : AppError :=
  ⟨"SEC_002", "Invalid signature", 401⟩

def errTimestampExpired : AppError :=
  ⟨"SEC_003", "Request timestamp expired", 403⟩

def errNonceUsed : AppError :=
  ⟨"SEC_004", "Nonce has already been used", 403⟩

def errMerchantSuspended : AppError :=
  ⟨"AUTH_004", "Merchant account is suspended", 403⟩

/-- `apperror.InternalError`: any wrapped store or infrastructure failure. -/
def internalError : AppError :=
  ⟨"SYS_001", "Internal server error", 500⟩

/-- `apperror.ErrEncryptionFailure` (wrapped cause dropped). -/
def errEncryptionFailure : AppError :=
  ⟨"SYS_003", "Encryption service failure", 500⟩

/-! ## Persistence model

The relational store is a record of entity lists; each Go repository method
used by the payment service becomes a pure function on it.  The Redis
idempotency cache is a string-keyed association list (`Set` prepends, so a
lookup sees the most recent write, matching overwrite semantics). -/

/-- State of the relational store visible to the ledger engine. -/
structure DBState (C B : Type) where
  wallets : List (Wallet C)
  transactions : List (Transaction C)
  idempLogs : List (IdempotencyLog B)
deriving DecidableEq

/-- Whole observable state: durable store plus the Redis idempotency
cache. -/
structure GatewayState (C B : Type) where
  db : DBState C B
  kv : List (String × B)
deriving DecidableEq

/-- `WalletRepo.GetByMerchantIDForUpdate`: the wallet row for
`(merchant, currency)`. -/
def findWalletByMerchant {C B : Type} (db : DBState C B) (merchantID currency : String) :
    Option (Wallet C) :=
  db.wallets.find? fun w => w.merchantID = merchantID ∧ w.currency = currency

/-- `WalletRepo.GetByIDForUpdate`: the wallet row by id. -/
def findWalletByID {C B : Type} (db : DBState C B) (walletID : String) : Option (Wallet C) :=
  db.wallets.find? fun w => w.id = walletID

/-- `WalletRepo.UpdateBalance`: replace the sealed balance of the wallet
with the given id. -/
def updateWalletBalance {C B : Type} (db : DBState C B) (walletID : String) (enc : C) :
    DBState C B :=
  { db with wallets := db.wallets.map fun w =>
      if w.id = walletID then { w with encryptedBalance := enc } else w }

/-- `TransactionRepo.Create`: insert a transaction row. -/
def createTransaction {C B : Type} (db : DBState C B) (t : Transaction C) : DBState C B :=
  { db with transactions := db.transactions ++ [t] }

/-- `TransactionRepo.GetByReference`: row for `(merchant, reference)`. -/
def getByReference {C B : Type} (db : DBState C B) (merchantID referenceID : String) :
    Option (Transaction C) :=
  db.transactions.find? fun t => t.merchantID = merchantID ∧ t.referenceID = referenceID

/-- `TransactionRepo.UpdateStatus`: set status and processing time of the
transaction with the given id. -/
def updateTransactionStatus {C B : Type} (db : DBState C B) (txID : String)
    (status : TransactionStatus) (now : Int) : DBState C B :=
  { db with transactions := db.transactions.map fun t =>
      if t.id = txID then { t with status := status, processedAt := some now } else t }

/-- `TransactionRepo.CheckRefundExists`: some non-failed refund links to
the original. -/
def checkRefundExists {C B : Type} (db : DBState C B) (originalTxID : String) : Bool :=
  db.transactions.any fun t =>
    t.originalTransactionID = some originalTxID ∧
    t.transactionType = TransactionType.refund ∧ ¬ t.status = TransactionStatus.failed

/-- `IdempotencyRepo.Get`: durable idempotency record under a key. -/
def idempGet {C B : Type} (db : DBState C B) (key : String) : Option (IdempotencyLog B) :=
  db.idempLogs.find? fun lg => lg.key = key

/-- `IdempotencyRepo.Create`: insert an idempotency record. -/
def createIdempLog {C B : Type} (db : DBState C B) (lg : IdempotencyLog B) : DBState C B :=
  { db with idempLogs := db.idempLogs ++ [lg] }

/-- `redis.IdempotencyCache.Get`: lookup under the `idempotency:` key
prefix. -/
def cacheGet {C B : Type} (st : GatewayState C B) (key : String) : Option B :=
  (st.kv.find? fun p => p.1 = "idempotency:" ++ key).map Prod.snd

/-- `redis.IdempotencyCache.Set`: store under the `idempotency:` key
prefix. -/
def cacheSet {C B : Type} (st : GatewayState C B) (key : String) (v : B) :
    GatewayState C B :=
  { st with kv := ("idempotency:" ++ key, v) :: st.kv }

/-! ## External services and failure environment -/

/-- The AEAD encryption service (`ports.EncryptionService`) and json
marshalling of transactions, abstracted over the ciphertext type `C` and
the response-bytes type `B`.  `encrypt` may fail, matching the Go
signature; round-trip laws are stated as hypotheses where a claim needs
them. -/
structure Oracle (C B : Type) where
  encrypt : String → Option C
  decrypt : C → Option String
  marshalTx : Transaction C → B
  unmarshalTx : B → Option (Transaction C)

/-- Outcome of every fallible external call made by
`PaymentServiceImpl.ProcessPayment` / `ProcessRefund`, in source order,
plus the fresh UUID and the wall clock.  A `true` flag makes the
corresponding call return its error. -/
structure Env where
  cacheGetErr : Bool
  dbIdempGetErr : Bool
  getByRefErr : Bool
  checkRefundExistsErr : Bool
  beginErr : Bool
  lockErr : Bool
  updateBalanceErr : Bool
  createTxErr : Bool
  updateStatusErr : Bool
  idempCreateErr : Bool
  commitErr : Bool
  cacheSetErr : Bool
  newID : String
  now : Int
deriving DecidableEq

/-- An environment with no injected infrastructure failures. -/
def Env.ok (newID : String) (now : Int) : Env :=
  ⟨false, false, false, false, false, false, false, false, false, false, false, false,
    newID, now⟩

/-- `PaymentServiceImpl.unmarshalCachedTransaction`. -/
def unmarshalCachedTransaction {C B : Type} (O : Oracle C B) (data : B) :
    Except AppError (Transaction C) :=
  match O.unmarshalTx data with
  | none => .error internalError
  | some t => .ok t

/-! ## Ledger engine (internal/service/payment_service.go)

Each service method returns its Go result together with the state after the
call; every error path leaves the state exactly as it was, because in the
source all durable writes go through the single `dbTx` that is rolled back
by the deferred `Rollback` unless `Commit` runs. -/

/-- `ports.PaymentRequest`. -/
structure PaymentRequest where
  merchantID : String
  referenceID : String
  amount : Int
  currency : String
  signature : String
  clientIP : String
  extraData : Option String
deriving DecidableEq

/-- The transaction record built by `ProcessPayment` (payment_service.go
lines 122-137). -/
def mkPaymentTxn {C : Type} (env : Env) (req : PaymentRequest) (walletID : String)
    (amountEnc : C) : Transaction C :=
  { id := env.newID
    referenceID := req.referenceID
    merchantID := req.merchantID
    walletID := walletID
    amount := req.amount
    amountEncrypted := amountEnc
    transactionType := .payment
    status := .success
    signature := req.signature
    clientIP := req.clientIP
    extraData := req.extraData
    originalTransactionID := none
    createdAt := env.now
    processedAt := some env.now }

/-- Body of the payment database transaction: `ProcessPayment` from
`transactor.Begin` up to `Commit` (payment_service.go lines 79-168).  On
success it returns the created transaction, the marshalled response and
the committed store. -/
def paymentWork {C B : Type} (O : Oracle C B) (env : Env) (db : DBState C B)
    (req : PaymentRequest) (idempKey : String) :
    Except AppError (Transaction C × B × DBState C B) :=
  if env.lockErr then .error internalError else
  match findWalletByMerchant db req.merchantID req.currency with
  | none => .error (errNotFound "wallet")
  | some wallet =>
    match O.decrypt wallet.encryptedBalance with
    | none => .error errEncryptionFailure
    | some balanceStr =>
      match parseInt64 balanceStr with
      | none => .error internalError
      | some currentBalance =>
        if currentBalance < req.amount then .error errInsufficientFunds else
        let newBalance := wrap64 (currentBalance - req.amount)
        match O.encrypt (intStr newBalance) with
        | none => .error errEncryptionFailure
        | some newBalanceEnc =>
          match O.encrypt (intStr req.amount) with
          | none => .error errEncryptionFailure
          | some amountEnc =>
            let txn : Transaction C := mkPaymentTxn env req wallet.id amountEnc
            if env.updateBalanceErr then .error internalError else
            let db1 := updateWalletBalance db wallet.id newBalanceEnc
            if env.createTxErr then .error internalError else
            let db2 := createTransaction db1 txn
            let respJSON := O.marshalTx txn
            if env.idempCreateErr then .error internalError else
            let db3 := createIdempLog db2
              { key := idempKey, transactionID := txn.id, responseJSON := respJSON,
                createdAt := env.now }
            if env.commitErr then .error internalError else
            .ok (txn, respJSON, db3)

/-- `PaymentServiceImpl.ProcessPayment`: validation, the two idempotency
layers, then the durable payment transaction and the best-effort cache
write. -/
def processPayment {C B : Type} (O : Oracle C B) (env : Env) (st : GatewayState C B)
    (req : PaymentRequest) : Except AppError (Transaction C) × GatewayState C B :=
  if req.amount ≤ 0 then (.error errInvalidAmount, st) else
  let idempKey := buildIdempotencyKey req.merchantID req.referenceID
  let cached : Option B := if env.cacheGetErr then none else cacheGet st idempKey
  match cached with
  | some bytes => (unmarshalCachedTransaction O bytes, st)
  | none =>
    if env.dbIdempGetErr then (.error internalError, st) else
    match idempGet st.db idempKey with
    | some lg => (unmarshalCachedTransaction O lg.responseJSON, st)
    | none =>
      if env.beginErr then (.error internalError, st) else
      match paymentWork O env st.db req idempKey with
      | .error e => (.error e, st)
      | .ok (txn, respJSON, db') =>
        let st' : GatewayState C B := { st with db := db' }
        (.ok txn, if env.cacheSetErr then st' else cacheSet st' idempKey respJSON)

/-- `ports.RefundRequest`; `amount = none` requests a full refund. -/
structure RefundRequest where
  merchantID : String
  originalReferenceID : String
  amount : Option Int
  reason : String
  signature : String
  clientIP : String
deriving DecidableEq

/-- The refund transaction record built by `ProcessRefund`
(payment_service.go lines 277-294): reference `REFUND-` plus the original
reference, explicit link to the original. -/
def mkRefundTxn {C : Type} (env : Env) (req : RefundRequest) (walletID origTxID : String)
    (refundAmount : Int) (amountEnc : C) : Transaction C :=
  { id := env.newID
    referenceID := "REFUND-" ++ req.originalReferenceID
    merchantID := req.merchantID
    walletID := walletID
    amount := refundAmount
    amountEncrypted := amountEnc
    transactionType := .refund
    status := .success
    signature := req.signature
    clientIP := req.clientIP
    extraData := some req.reason
    originalTransactionID := some origTxID
    createdAt := env.now
    processedAt := some env.now }

/-- Body of the refund database transaction: `ProcessRefund` from
`transactor.Begin` up to `Commit` (payment_service.go lines 240-330),
given the pre-transaction reads. -/
def refundWork {C B : Type} (O : Oracle C B) (env : Env) (db : DBState C B)
    (req : RefundRequest) (idempKey : String) (origTx : Transaction C)
    (refundAmount : Int) : Except AppError (Transaction C × B × DBState C B) :=
  if env.lockErr then .error internalError else
  match findWalletByID db origTx.walletID with
  | none => .error (errNotFound "wallet")
  | some wallet =>
    match O.decrypt wallet.encryptedBalance with
    | none => .error errEncryptionFailure
    | some balanceStr =>
      match parseInt64 balanceStr with
      | none => .error internalError
      | some currentBalance =>
        let newBalance := wrap64 (currentBalance + refundAmount)
        match O.encrypt (intStr newBalance) with
        | none => .error errEncryptionFailure
        | some newBalanceEnc =>
          match O.encrypt (intStr refundAmount) with
          | none => .error errEncryptionFailure
          | some amountEnc =>
            let txn : Transaction C :=
              mkRefundTxn env req wallet.id origTx.id refundAmount amountEnc
            if env.updateBalanceErr then .error internalError else
            let db1 := updateWalletBalance db wallet.id newBalanceEnc
            if env.createTxErr then .error internalError else
            let db2 := createTransaction db1 txn
            if env.updateStatusErr then .error internalError else
            let db3 := updateTransactionStatus db2 origTx.id .reversed env.now
            let respJSON := O.marshalTx txn
            if env.idempCreateErr then .error internalError else
            let db4 := createIdempLog db3
              { key := idempKey, transactionID := txn.id, responseJSON := respJSON,
                createdAt := env.now }
            if env.commitErr then .error internalError else
            .ok (txn, respJSON, db4)

/-- Refund amount determination, `ProcessRefund` lines 227-237: the
original amount unless a positive amount not exceeding it is supplied. -/
def determineRefundAmount {C : Type} (origTx : Transaction C) (requested : Option Int) :
    Except AppError Int :=
  match requested with
  | none => .ok origTx.amount
  | some a =>
    if a ≤ 0 then .error errInvalidAmount
    else if a > origTx.amount then .error errRefundAmountExceedsOriginal
    else .ok a

/-- `PaymentServiceImpl.ProcessRefund`: the two idempotency layers, the
pre-transaction reads of the original, amount determination, then the
durable refund transaction and the best-effort cache write. -/
def processRefund {C B : Type} (O : Oracle C B) (env : Env) (st : GatewayState C B)
    (req : RefundRequest) : Except AppError (Transaction C) × GatewayState C B :=
  let idempKey := buildRefundIdempotencyKey req.merchantID req.originalReferenceID
  let cached : Option B := if env.cacheGetErr then none else cacheGet st idempKey
  match cached with
  | some bytes => (unmarshalCachedTransaction O bytes, st)
  | none =>
    if env.dbIdempGetErr then (.error internalError, st) else
    match idempGet st.db idempKey with
    | some lg => (unmarshalCachedTransaction O lg.responseJSON, st)
    | none =>
      if env.getByRefErr then (.error internalError, st) else
      match getByReference st.db req.merchantID req.originalReferenceID with
      | none => (.error (errNotFound "original transaction"), st)
      | some origTx =>
        if ¬ origTx.isRefundable then (.error errInvalidRefund, st) else
        if env.checkRefundExistsErr then (.error internalError, st) else
        if checkRefundExists st.db origTx.id then (.error errDuplicateTransaction, st) else
        match determineRefundAmount origTx req.amount with
        | .error e => (.error e, st)
        | .ok refundAmount =>
          if env.beginErr then (.error internalError, st) else
          match refundWork O env st.db req idempKey origTx refundAmount with
          | .error e => (.error e, st)
          | .ok (txn, respJSON, db') =>
            let st' : GatewayState C B := { st with db := db' }
            (.ok txn, if env.cacheSetErr then st' else cacheSet st' idempKey respJSON)

/-! ## HMAC-SHA-256 signature service (HMACSignatureService)

`Sign` is Go's `hmac.New(sha256.New, key)` over the UTF-8 bytes of the
inputs, hex-encoded lowercase; `Verify` recomputes and compares
(`hmac.Equal` is byte equality of the two strings).  SHA-256 is embedded
in full over `Nat` with explicit reduction mod 2^32. -/

/-- Reduction into a 32-bit word. -/
def u32 (x : Nat) : Nat := x % 4294967296

/-- 32-bit rotate right. -/
def rotr32 (n x : Nat) : Nat := u32 ((x >>> n) ||| (x <<< (32 - n)))

/-- 32-bit complement. -/
def cnot32 (x : Nat) : Nat := x ^^^ 4294967295

def ch32 (x y z : Nat) : Nat := (x &&& y) ^^^ (cnot32 x &&& z)

def maj32 (x y z : Nat) : Nat := (x &&& y) ^^^ (x &&& z) ^^^ (y &&& z)

def bsig0 (x : Nat) : Nat := rotr32 2 x ^^^ rotr32 13 x ^^^ rotr32 22 x

def bsig1 (x : Nat) : Nat := rotr32 6 x ^^^ rotr32 11 x ^^^ rotr32 25 x

def ssig0 (x : Nat) : Nat := rotr32 7 x ^^^ rotr32 18 x ^^^ (x >>> 3)

def ssig1 (x : Nat) : Nat := rotr32 17 x ^^^ rotr32 19 x ^^^ (x >>> 10)

/-- The SHA-256 round constants. -/
def sha256K : List Nat :=
  [1116352408, 1899447441, 3049323471, 3921009573, 961987163, 1508970993,
   2453635748, 2870763221, 3624381080, 310598401, 607225278, 1426881987,
   1925078388, 2162078206, 2614888103, 3248222580, 3835390401, 4022224774,
   264347078, 604807628, 770255983, 1249150122, 1555081692, 1996064986,
   2554220882, 2821834349, 2952996808, 3210313671, 3336571891, 3584528711,
   113926993, 338241895, 666307205, 773529912, 1294757372, 1396182291,
   1695183700, 1986661051, 2177026350, 2456956037, 2730485921, 2820302411,
   3259730800, 3345764771, 3516065817, 3600352804, 4094571909, 275423344,
   430227734, 506948616, 659060556, 883997877, 958139571, 1322822218,
   1537002063, 1747873779, 1955562222, 2024104815, 2227730452, 2361852424,
   2428436474, 2756734187, 3204031479, 3329325298]

/-- Big-endian bytes of a 32-bit word. -/
def be32ToBytes (w : Nat) : List Nat :=
  [(w >>> 24) % 256, (w >>> 16) % 256, (w >>> 8) % 256, w % 256]

/-- Big-endian bytes of a 64-bit length field. -/
def be64ToBytes (n : Nat) : List Nat :=
  [(n >>> 56) % 256, (n >>> 48) % 256, (n >>> 40) % 256, (n >>> 32) % 256,
   (n >>> 24) % 256, (n >>> 16) % 256, (n >>> 8) % 256, n % 256]

/-- Big-endian 32-bit words from a byte list (a multiple of four long). -/
def bytesToWords : List Nat → List Nat
  | b0 :: b1 :: b2 :: b3 :: rest =>
    (((b0 * 256 + b1) * 256 + b2) * 256 + b3) :: bytesToWords rest
  | _ => []

/-- SHA-256 padding: 0x80, zeros to 56 mod 64, the bit length big-endian. -/
def sha256Pad (msg : List Nat) : List Nat :=
  msg ++ 0x80 :: List.replicate ((64 + 55 - msg.length % 64) % 64) 0 ++
    be64ToBytes (8 * msg.length)

/-- Split a word list into blocks of sixteen words (fuel-bounded). -/
def chunksOf16 : Nat → List Nat → List (List Nat)
  | 0, _ => []
  | _, [] => []
  | fuel+1, ws => ws.take 16 :: chunksOf16 fuel (ws.drop 16)

/-- One extension step of the SHA-256 message schedule. -/
def schedStep (w : List Nat) : List Nat :=
  let t := w.length
  w ++ [u32 (ssig1 (w.getD (t - 2) 0) + w.getD (t - 7) 0 +
    ssig0 (w.getD (t - 15) 0) + w.getD (t - 16) 0)]

/-- The 64-word message schedule of one block. -/
def msgSchedule (block : List Nat) : List Nat :=
  (List.range 48).foldl (fun w _ => schedStep w) block

/-- The eight working variables of the SHA-256 compression function. -/
structure Hash8 where
  a : Nat
  b : Nat
  c : Nat
  d : Nat
  e : Nat
  f : Nat
  g : Nat
  h : Nat
deriving DecidableEq

/-- One round of the compression function. -/
def compressStep (W : List Nat) (s : Hash8) (t : Nat) : Hash8 :=
  let T1 := u32 (s.h + bsig1 s.e + ch32 s.e s.f s.g + sha256K.getD t 0 + W.getD t 0)
  let T2 := u32 (bsig0 s.a + maj32 s.a s.b s.c)
  ⟨u32 (T1 + T2), s.a, s.b, s.c, u32 (s.d + T1), s.e, s.f, s.g⟩

/-- Compress one sixteen-word block into the running hash. -/
def compressBlock (s : Hash8) (block : List Nat) : Hash8 :=
  let W := msgSchedule block
  let r := (List.range 64).foldl (compressStep W) s
  ⟨u32 (s.a + r.a), u32 (s.b + r.b), u32 (s.c + r.c), u32 (s.d + r.d),
   u32 (s.e + r.e), u32 (s.f + r.f), u32 (s.g + r.g), u32 (s.h + r.h)⟩

/-- The SHA-256 initial hash value. -/
def sha256H0 : Hash8 :=
  ⟨1779033703, 3144134277, 1013904242, 2773480762,
   1359893119, 2600822924, 528734635, 1541459225⟩

/-- Big-endian digest bytes of a hash state. -/
def digestBytes (s : Hash8) : List Nat :=
  [s.a, s.b, s.c, s.d, s.e, s.f, s.g, s.h].flatMap be32ToBytes

/-- SHA-256 of a byte list. -/
def sha256 (msg : List Nat) : List Nat :=
  let ws := bytesToWords (sha256Pad msg)
  digestBytes ((chunksOf16 ws.length ws).foldl compressBlock sha256H0)

/-- HMAC key normalization: hash keys longer than the 64-byte block, then
zero-pad to the block size (Go `crypto/hmac`). -/
def hmacNormKey (key : List Nat) : List Nat :=
  let k := if key.length > 64 then sha256 key else key
  k ++ List.replicate (64 - k.length) 0

/-- HMAC-SHA-256 of a message under a key, over bytes. -/
def hmacSha256 (key msg : List Nat) : List Nat :=
  let k0 := hmacNormKey key
  let ipad := k0.map (fun b => b ^^^ 0x36)
  let opad := k0.map (fun b => b ^^^ 0x5c)
  sha256 (opad ++ sha256 (ipad ++ msg))

/-- UTF-8 encoding of one character (Go's `[]byte(string)` view). -/
def utf8Bytes (c : Char) : List Nat :=
  let n := c.toNat
  if n < 0x80 then [n]
  else if n < 0x800 then
    [0xC0 ||| (n >>> 6), 0x80 ||| (n &&& 0x3F)]
  else if n < 0x10000 then
    [0xE0 ||| (n >>> 12), 0x80 ||| ((n >>> 6) &&& 0x3F), 0x80 ||| (n &&& 0x3F)]
  else
    [0xF0 ||| (n >>> 18), 0x80 ||| ((n >>> 12) &&& 0x3F),
     0x80 ||| ((n >>> 6) &&& 0x3F), 0x80 ||| (n &&& 0x3F)]

/-- The bytes of a string. -/
def strBytes (s : String) : List Nat := s.data.flatMap utf8Bytes

/-- The lowercase hex alphabet. -/
def hexDigits : List Char := "0123456789abcdef".data

/-- The hex character of a value (reduced mod 16). -/
def hexChar (n : Nat) : Char := hexDigits.getD (n % 16) '0'

/-- Two lowercase hex characters of one byte. -/
def byteToHex (b : Nat) : List Char := [hexChar (b / 16), hexChar b]

/-- Lowercase hex encoding of a byte list (Go `hex.EncodeToString`). -/
def bytesToHexStr (bs : List Nat) : String := ⟨bs.flatMap byteToHex⟩

/-- `HMACSignatureService.Sign`: lowercase-hex HMAC-SHA-256 of the payload
under the secret key. -/
def sign (secretKey payload : String) : String :=
  bytesToHexStr (hmacSha256 (strBytes secretKey) (strBytes payload))

/-- `HMACSignatureService.Verify`: recompute and compare (Go `hmac.Equal`
on the byte views of the two strings, which is string equality). -/
def verify (secretKey payload signatureHex : String) : Bool :=
  sign secretKey payload == signatureHex

/-- `HMACSignatureService.BuildCanonicalString`:
`METHOD|PATH|TIMESTAMP|NONCE|BODY`. -/
def buildCanonicalString (method path : String) (timestamp : Int)
    (nonce body : String) : String :=
  method ++ "|" ++ path ++ "|" ++ toString timestamp ++ "|" ++ nonce ++ "|" ++ body

/-! ## Authenticity pipeline (middleware HMACAuth and the redis
NonceStore) -/

/-- Merchant account state, `domain.MerchantStatus`. -/
inductive MerchantStatus
  | active
  | suspended
  | deactivated
deriving DecidableEq

/-- The merchant fields the middleware consumes, `domain.Merchant`. -/
structure MerchantRec (C : Type) where
  id : String
  accessKey : String
  secretKeyEnc : C
  status : MerchantStatus
deriving DecidableEq

/-- Go `Merchant.IsActive`. -/
def MerchantRec.isActive {C : Type} (m : MerchantRec C) : Bool :=
  m.status = MerchantStatus.active

/-- The four authentication headers read by `HMACAuth`. -/
structure AuthHeaders where
  accessKey : String
  signatureHdr : String
  timestampStr : String
  nonce : String
deriving DecidableEq

/-- Outcome of one Redis `SET NX` call. -/
inductive SetNXResult
  | claimed
  | alreadyPresent
  | kvError
deriving DecidableEq

/-- The nonce key built by `redis.NonceStore.CheckAndSet`:
the store's `nonce:` key prefix, the merchant id and the nonce. -/
def nonceKey (merchantID nonce : String) : String :=
  "nonce:" ++ merchantID ++ ":" ++ nonce

/-- The middleware's nonce TTL (`nonceTTL = 120 * time.Second`). -/
def nonceTTLSeconds : Nat := 120

/-- The middleware's timestamp window (`maxTimestampDrift = 60s`). -/
def maxTimestampDriftSeconds : Nat := 60

/-- `redis.NonceStore.CheckAndSet`: one atomic `SET NX` under the nonce
key; true when the nonce was new and is now claimed, false when the key
was already present, error when Redis failed.  Absence of data is never
reported as anything but a fresh claim of the key. -/
def checkAndSet (kvSetNX : String → Nat → SetNXResult) (merchantID nonce : String)
    (ttl : Nat) : Except Unit Bool :=
  match kvSetNX (nonceKey merchantID nonce) ttl with
  | .claimed => .ok true
  | .alreadyPresent => .ok false
  | .kvError => .error ()

/-- Step 3 of `HMACAuth`: unseal the merchant secret and verify the MAC
over the canonical string. -/
def signatureStep {C B : Type} (O : Oracle C B) (m : MerchantRec C) (ts : Int)
    (method path body : String) (hd : AuthHeaders) : Except AppError (MerchantRec C) :=
  match O.decrypt m.secretKeyEnc with
  | none => .error internalError
  | some secretKey =>
    if verify secretKey (buildCanonicalString method path ts hd.nonce body) hd.signatureHdr
    then .ok m
    else .error errInvalidSignature

/-- `middleware.HMACAuth`: header presence, timestamp window, merchant
lookup and status, nonce claim (a store error is logged and soft-allowed;
a failed claim is `nonce-used`), then signature verification. -/
def hmacAuth {C B : Type} (O : Oracle C B)
    (merchantLookup : Except Unit (Option (MerchantRec C)))
    (kvSetNX : String → Nat → SetNXResult) (now : Int)
    (method path body : String) (hd : AuthHeaders) : Except AppError (MerchantRec C) :=
  if hd.accessKey = "" ∨ hd.signatureHdr = "" ∨ hd.timestampStr = "" ∨ hd.nonce = "" then
    .error errInvalidAccessKey
  else
    match parseInt64 hd.timestampStr with
    | none => .error errTimestampExpired
    | some ts =>
      if (now - ts).natAbs > maxTimestampDriftSeconds then .error errTimestampExpired
      else
        match merchantLookup with
        | .error _ => .error internalError
        | .ok none => .error errInvalidAccessKey
        | .ok (some merchant) =>
          if ¬ merchant.isActive then .error errMerchantSuspended
          else
            match checkAndSet kvSetNX merchant.id hd.nonce nonceTTLSeconds with
            | .ok false => .error errNonceUsed
            | _ => signatureStep O merchant ts method path body hd

/-! ## Webhook dispatcher (internal/service/webhook_service.go,
`deliverWithRetries`)

The attempt loop is modelled as fuel-bounded recursion: the Go code runs
`for attempt := 0; attempt <= len(webhookRetryIntervals); attempt++`, so
1 + 5 iterations.  Each iteration's HTTP outcome is an oracle
`respond : Nat → AttemptOutcome`; request-construction failures and
transport errors `continue` without delivering, exactly like the source;
the sleeps executed before retries are recorded. -/

/-- Delivery state of a webhook, `domain.WebhookStatus`. -/
inductive WebhookStatus
  | pending
  | delivered
  | failed
deriving DecidableEq

/-- Outcome of one loop iteration of `deliverWithRetries`:
`http.NewRequest` failing, `httpClient.Do` failing, or an HTTP response
with a status code. -/
inductive AttemptOutcome
  | buildErr
  | transportErr
  | httpStatus (code : Nat)
deriving DecidableEq

/-- The retry intervals of webhook_service.go lines 18-25, in seconds. -/
def webhookRetryIntervals : List Nat := [15, 60, 120, 300, 600]

/-- The source's success test `resp.StatusCode >= 200 && resp.StatusCode < 300`. -/
def is2xx : AttemptOutcome → Bool
  | .httpStatus c => decide (200 ≤ c ∧ c < 300)
  | _ => false

/-- Observable outcome of the delivery loop: loop iterations run, HTTP
POSTs actually issued, the sleeps performed before retries (in order) and
the final delivery-log status. -/
structure DeliveryResult where
  iterations : Nat
  posts : Nat
  sleeps : List Nat
  status : WebhookStatus
deriving DecidableEq

/-- The loop body of `deliverWithRetries` from `attempt` on, with `fuel`
iterations remaining; exhausted fuel is the loop exit, which marks the
delivery failed (webhook_service.go lines 241-243 of the persisted
variant). -/
def deliverAux (respond : Nat → AttemptOutcome) : Nat → Nat → DeliveryResult
  | _, 0 => ⟨0, 0, [], .failed⟩
  | attempt, fuel+1 =>
    let sleepNow : List Nat :=
      if attempt > 0 then [webhookRetryIntervals.getD (attempt - 1) 0] else []
    match respond attempt with
    | .buildErr =>
      let r := deliverAux respond (attempt+1) fuel
      ⟨r.iterations + 1, r.posts, sleepNow ++ r.sleeps, r.status⟩
    | .transportErr =>
      let r := deliverAux respond (attempt+1) fuel
      ⟨r.iterations + 1, r.posts + 1, sleepNow ++ r.sleeps, r.status⟩
    | .httpStatus c =>
      if 200 ≤ c ∧ c < 300 then ⟨1, 1, sleepNow, .delivered⟩
      else
        let r := deliverAux respond (attempt+1) fuel
        ⟨r.iterations + 1, r.posts + 1, sleepNow ++ r.sleeps, r.status⟩

/-- `deliverWithRetries`: one immediate attempt then up to five retries. -/
def deliverWithRetries (respond : Nat → AttemptOutcome) : DeliveryResult :=
  deliverAux respond 0 (webhookRetryIntervals.length + 1)

/-- The four durable writes of a committed refund, observed on the store:
the refund row exists (kind refund, status success), the linked original is
reversed, the idempotency record under the refund key points at the refund
row, and the wallet row differs from the pre-state only in its sealed
balance. -/
def refundCommitted {C B : Type} (db db' : DBState C B) (txn : Transaction C)
    (key : String) : Prop :=
  txn.transactionType = .refund ∧ txn.status = .success ∧
  txn ∈ db'.transactions ∧
  (∃ oid, txn.originalTransactionID = some oid ∧
    ∃ ot ∈ db'.transactions, ot.id = oid ∧ ot.status = .reversed) ∧
  (∃ lg, idempGet db' key = some lg ∧ lg.transactionID = txn.id) ∧
  (∃ c, findWalletByID db' txn.walletID =
    (findWalletByID db txn.walletID).map fun w => { w with encryptedBalance := c })

/-- Value of a byte list read as a big-endian base-256 numeral. -/
def bytesVal (l : List Nat) : Nat := l.foldl (fun a b => a * 256 + b) 0

/-! Witness fixtures: the trivial instantiation with `C := String`,
`B := Transaction String`, identity sealing and marshalling. -/

/-- Trivial oracle used by the concrete witnesses: plaintext sealing and
identity marshalling. -/
def trivOracle : Oracle String (Transaction String) :=
  ⟨some, some, id, some⟩

def demoWallet : Wallet String := ⟨"W", "M", "VND", "1000000"⟩

def demoState : GatewayState String (Transaction String) := ⟨⟨[demoWallet], [], []⟩, []⟩

def demoPayReq : PaymentRequest := ⟨"M", "ORD-1", 250000, "VND", "sig", "1.2.3.4", none⟩

deriving instance DecidableEq for Except

/-- The transaction row created by the demo payment. -/
def demoPayTxn : Transaction String :=
  ⟨"T1", "ORD-1", "M", "W", 250000, "250000", .payment, .success, "sig", "1.2.3.4",
    none, none, 100, some 100⟩

/-- State after the demo payment committed: debited wallet, the payment
row, its durable idempotency record and the populated KV cache. -/
def demoPostPayState : GatewayState String (Transaction String) :=
  ⟨⟨[⟨"W", "M", "VND", "750000"⟩], [demoPayTxn], [⟨"M:ORD-1", "T1", demoPayTxn, 100⟩]⟩,
    [("idempotency:M:ORD-1", demoPayTxn)]⟩

/-- The same durable state with an empty KV cache (for example after the
24-hour cache TTL expired): the durable record alone answers replays. -/
def demoDbHitState : GatewayState String (Transaction String) :=
  { demoPostPayState with kv := [] }

def demoRefundReq : RefundRequest := ⟨"M", "ORD-1", none, "change of mind", "sig2", "1.2.3.4"⟩

/-- State after the demo full refund committed. -/
def demoPostRefundState : GatewayState String (Transaction String) :=
  (processRefund trivOracle (Env.ok "T2" 300) demoPostPayState demoRefundReq).2

/-- The refund row created by the demo full refund. -/
def demoRefundTxn : Transaction String :=
  ⟨"T2", "REFUND-ORD-1", "M", "W", 250000, "250000", .refund, .success, "sig2", "1.2.3.4",
    some "change of mind", some "T1", 300, some 300⟩

/-- A refund request carrying a non-positive amount. -/
def demoNegRefundReq : RefundRequest := ⟨"M", "ORD-1", some (-5), "bad", "s", "ip"⟩

/-- Environment in which the in-transaction idempotency-record insert fails,
modelling the commit-time uniqueness violation of the losing racer. -/
def demoDupEnv : Env := { Env.ok "T2" 300 with idempCreateErr := true }

/-- A partial refund request: 100 000 of the 250 000 payment. -/
def demoPartialReq : RefundRequest := ⟨"M", "ORD-1", some 100000, "partial", "s", "ip"⟩

/-- The refund row created by the partial refund. -/
def demoPartialTxn : Transaction String :=
  ⟨"T2", "REFUND-ORD-1", "M", "W", 100000, "100000", .refund, .success, "s", "ip",
    some "partial", some "T1", 300, some 300⟩

/-- State after the demo partial refund committed. -/
def demoPartialState : GatewayState String (Transaction String) :=
  (processRefund trivOracle (Env.ok "T2" 300) demoPostPayState demoPartialReq).2

/-- A later attempt to refund the remainder of the partially refunded
payment. -/
def demoRemainderReq : RefundRequest := ⟨"M", "ORD-1", some 150000, "rest", "s2", "ip"⟩

/-- An active demo merchant with a sealed secret. -/
def demoMerchant : MerchantRec String := ⟨"M", "AK", "sec", .active⟩

/-- Headers of a well-formed signed request. -/
def demoHeaders : AuthHeaders := ⟨"AK", "ff", "100", "n1"⟩

/-- A KV store in which the nonce key is already present. -/
def demoKvUsed : String → Nat → SetNXResult := fun _ _ => .alreadyPresent

/-- A KV store that fails. -/
def demoKvDown : String → Nat → SetNXResult := fun _ _ => .kvError

/-- An endpoint that always answers HTTP 500. -/
def demoRespondFail : Nat → AttemptOutcome := fun _ => .httpStatus 500

/-- An endpoint that answers 204 on the third attempt and fails transport
before that. -/
def demoRespondOk2 : Nat → AttemptOutcome := fun i => if i = 2 then .httpStatus 204
  else .transportErr

theorem parseInt64Core_range {neg : Bool} {digits : List Char} {v : Int}
    (h : parseInt64Core neg digits = some v) : i64min ≤ v ∧ v ≤ i64max := by
  unfold parseInt64Core at h
  rcases hp : parseNatDigits digits with _ | n <;> rw [hp] at h
  · exact absurd h (by simp)
  · cases neg <;> simp only [Bool.false_eq_true, if_true, if_false] at h <;>
      split_ifs at h with hr <;> simp only [Option.some.injEq] at h <;>
      [skip; skip] <;> omega

theorem parseInt64_range {s : String} {v : Int} (h : parseInt64 s = some v) :
    i64min ≤ v ∧ v ≤ i64max := by
  unfold parseInt64 at h
  rcases hsd : s.data with _ | ⟨c, rest⟩ <;> rw [hsd] at h
  · exact absurd h (by simp)
  · simp only at h
    split_ifs at h <;> exact parseInt64Core_range h

theorem wrap64_eq_self {x : Int} (h1 : i64min ≤ x) (h2 : x ≤ i64max) :
    wrap64 x = x := by
  unfold wrap64
  unfold i64min at h1
  unfold i64max at h2
  omega

/-! ## Bookkeeping lemmas about the store operations -/

@[simp]
theorem mkPaymentTxn_fields {C : Type} (env : Env) (req : PaymentRequest) (wid : String)
    (enc : C) :
    (mkPaymentTxn env req wid enc).id = env.newID ∧
    (mkPaymentTxn env req wid enc).transactionType = .payment ∧
    (mkPaymentTxn env req wid enc).status = .success ∧
    (mkPaymentTxn env req wid enc).amount = req.amount ∧
    (mkPaymentTxn env req wid enc).walletID = wid := by
  exact ⟨rfl, rfl, rfl, rfl, rfl⟩

@[simp]
theorem mkRefundTxn_fields {C : Type} (env : Env) (req : RefundRequest)
    (wid oid : String) (ra : Int) (enc : C) :
    (mkRefundTxn env req wid oid ra enc).id = env.newID ∧
    (mkRefundTxn env req wid oid ra enc).transactionType = .refund ∧
    (mkRefundTxn env req wid oid ra enc).status = .success ∧
    (mkRefundTxn env req wid oid ra enc).amount = ra ∧
    (mkRefundTxn env req wid oid ra enc).walletID = wid ∧
    (mkRefundTxn env req wid oid ra enc).referenceID = "REFUND-" ++ req.originalReferenceID ∧
    (mkRefundTxn env req wid oid ra enc).originalTransactionID = some oid := by
  exact ⟨rfl, rfl, rfl, rfl, rfl, rfl, rfl⟩

theorem find?_append_right_of_none {α : Type} (l : List α) (x : α) (p : α → Bool)
    (h : l.find? p = none) (hx : p x = true) : (l ++ [x]).find? p = some x := by
  induction l with
  | nil => simp [List.find?, hx]
  | cons hd tl ih =>
    by_cases hp : p hd
    · rw [List.find?_cons_of_pos _ hp] at h
      exact absurd h (by simp)
    · rw [List.find?_cons_of_neg _ hp] at h
      rw [List.cons_append, List.find?_cons_of_neg _ hp]
      exact ih h

/-- Updating a wallet balance changes exactly the sealed balance of the
rows with that id, as seen by a lookup by id. -/
theorem findWalletByID_updateWalletBalance {C B : Type} (db : DBState C B) (wid : String)
    (c : C) :
    findWalletByID (updateWalletBalance db wid c) wid =
      (findWalletByID db wid).map (fun w => { w with encryptedBalance := c }) := by
  unfold findWalletByID updateWalletBalance
  simp only
  induction db.wallets with
  | nil => rfl
  | cons hd tl ih =>
    by_cases h : hd.id = wid
    · simp [List.find?, h]
    · simp only [List.map_cons, if_neg h]
      rw [List.find?_cons_of_neg _ (by simpa using h), List.find?_cons_of_neg _ (by simpa using h)]
      exact ih

theorem mem_updateTransactionStatus_of_ne {C B : Type} (db : DBState C B) (txID : String)
    (s : TransactionStatus) (now : Int) {t : Transaction C} (ht : t ∈ db.transactions)
    (hne : ¬ t.id = txID) : t ∈ (updateTransactionStatus db txID s now).transactions := by
  unfold updateTransactionStatus
  simp only [List.mem_map]
  exact ⟨t, ht, by rw [if_neg hne]⟩

theorem mem_updateTransactionStatus_self {C B : Type} (db : DBState C B)
    (s : TransactionStatus) (now : Int) {t : Transaction C} (ht : t ∈ db.transactions) :
    { t with status := s, processedAt := some now } ∈
      (updateTransactionStatus db t.id s now).transactions := by
  unfold updateTransactionStatus
  simp only [List.mem_map]
  exact ⟨t, ht, by rw [if_pos rfl]⟩

theorem mem_of_getByReference {C B : Type} {db : DBState C B} {m r : String}
    {t : Transaction C} (h : getByReference db m r = some t) : t ∈ db.transactions := by
  unfold getByReference at h
  exact List.mem_of_find?_eq_some h

/-! ## Dispatch lemmas: the idempotency envelope of the two operations -/

theorem processPayment_bothMiss {C B : Type} (O : Oracle C B) (env : Env)
    (st : GatewayState C B) (req : PaymentRequest)
    (hpos : ¬ req.amount ≤ 0)
    (hcW : env.cacheGetErr = false)
    (hc1 : cacheGet st (buildIdempotencyKey req.merchantID req.referenceID) = none)
    (hdbE : env.dbIdempGetErr = false)
    (hc2 : idempGet st.db (buildIdempotencyKey req.merchantID req.referenceID) = none)
    (hbegin : env.beginErr = false) :
    processPayment O env st req =
      match paymentWork O env st.db req (buildIdempotencyKey req.merchantID req.referenceID) with
      | .error e => (.error e, st)
      | .ok (txn, respJSON, db') =>
        (.ok txn,
          if env.cacheSetErr then { st with db := db' }
          else cacheSet { st with db := db' }
            (buildIdempotencyKey req.merchantID req.referenceID) respJSON) := by
  unfold processPayment
  rw [if_neg hpos]
  simp [hcW, hc1, hdbE, hc2, hbegin]

theorem processRefund_bothMiss {C B : Type} (O : Oracle C B) (env : Env)
    (st : GatewayState C B) (req : RefundRequest)
    (hcW : env.cacheGetErr = false)
    (hc1 : cacheGet st (buildRefundIdempotencyKey req.merchantID req.originalReferenceID) = none)
    (hdbE : env.dbIdempGetErr = false)
    (hc2 : idempGet st.db (buildRefundIdempotencyKey req.merchantID req.originalReferenceID)
      = none) :
    processRefund O env st req =
      (if env.getByRefErr then (.error internalError, st) else
       match getByReference st.db req.merchantID req.originalReferenceID with
       | none => (.error (errNotFound "original transaction"), st)
       | some origTx =>
         if ¬ origTx.isRefundable then (.error errInvalidRefund, st) else
         if env.checkRefundExistsErr then (.error internalError, st) else
         if checkRefundExists st.db origTx.id then (.error errDuplicateTransaction, st) else
         match determineRefundAmount origTx req.amount with
         | .error e => (.error e, st)
         | .ok refundAmount =>
           if env.beginErr then (.error internalError, st) else
           match refundWork O env st.db req
               (buildRefundIdempotencyKey req.merchantID req.originalReferenceID)
               origTx refundAmount with
           | .error e => (.error e, st)
           | .ok (txn, respJSON, db') =>
             (.ok txn,
               if env.cacheSetErr then { st with db := db' }
               else cacheSet { st with db := db' }
                 (buildRefundIdempotencyKey req.merchantID req.originalReferenceID)
                 respJSON)) := by
  unfold processRefund
  simp [hcW, hc1, hdbE, hc2]

theorem paymentWork_insufficient {C B : Type} (O : Oracle C B) (env : Env)
    (db : DBState C B) (req : PaymentRequest) (idempKey : String) (w : Wallet C)
    (balanceStr : String) (bal : Int)
    (hlock : env.lockErr = false)
    (hw : findWalletByMerchant db req.merchantID req.currency = some w)
    (hdec : O.decrypt w.encryptedBalance = some balanceStr)
    (hparse : parseInt64 balanceStr = some bal)
    (hlt : bal < req.amount) :
    paymentWork O env db req idempKey = .error errInsufficientFunds := by
  unfold paymentWork
  simp [hlock, hw, hdec, hparse, hlt]

theorem paymentWork_success {C B : Type} (O : Oracle C B) (env : Env)
    (db : DBState C B) (req : PaymentRequest) (idempKey : String) (w : Wallet C)
    (balanceStr : String) (bal : Int) (c1 c2 : C)
    (hlock : env.lockErr = false)
    (hw : findWalletByMerchant db req.merchantID req.currency = some w)
    (hdec : O.decrypt w.encryptedBalance = some balanceStr)
    (hparse : parseInt64 balanceStr = some bal)
    (hge : ¬ bal < req.amount)
    (henc1 : O.encrypt (intStr (wrap64 (bal - req.amount))) = some c1)
    (henc2 : O.encrypt (intStr req.amount) = some c2)
    (hupd : env.updateBalanceErr = false) (hcr : env.createTxErr = false)
    (hic : env.idempCreateErr = false) (hcm : env.commitErr = false) :
    paymentWork O env db req idempKey =
      .ok (mkPaymentTxn env req w.id c2,
           O.marshalTx (mkPaymentTxn env req w.id c2),
           createIdempLog
             (createTransaction (updateWalletBalance db w.id c1)
               (mkPaymentTxn env req w.id c2))
             { key := idempKey, transactionID := env.newID,
               responseJSON := O.marshalTx (mkPaymentTxn env req w.id c2),
               createdAt := env.now }) := by
  unfold paymentWork
  simp [hlock, hw, hdec, hparse, hge, henc1, henc2, hupd, hcr, hic, hcm, mkPaymentTxn]

theorem refundWork_success {C B : Type} (O : Oracle C B) (env : Env)
    (db : DBState C B) (req : RefundRequest) (idempKey : String)
    (origTx : Transaction C) (refundAmount : Int) (w : Wallet C)
    (balanceStr : String) (bal : Int) (c1 c2 : C)
    (hlock : env.lockErr = false)
    (hw : findWalletByID db origTx.walletID = some w)
    (hdec : O.decrypt w.encryptedBalance = some balanceStr)
    (hparse : parseInt64 balanceStr = some bal)
    (henc1 : O.encrypt (intStr (wrap64 (bal + refundAmount))) = some c1)
    (henc2 : O.encrypt (intStr refundAmount) = some c2)
    (hupd : env.updateBalanceErr = false) (hcr : env.createTxErr = false)
    (hus : env.updateStatusErr = false)
    (hic : env.idempCreateErr = false) (hcm : env.commitErr = false) :
    refundWork O env db req idempKey origTx refundAmount =
      .ok (mkRefundTxn env req w.id origTx.id refundAmount c2,
           O.marshalTx (mkRefundTxn env req w.id origTx.id refundAmount c2),
           createIdempLog
             (updateTransactionStatus
               (createTransaction (updateWalletBalance db w.id c1)
                 (mkRefundTxn env req w.id origTx.id refundAmount c2))
               origTx.id .reversed env.now)
             { key := idempKey, transactionID := env.newID,
               responseJSON :=
                 O.marshalTx (mkRefundTxn env req w.id origTx.id refundAmount c2),
               createdAt := env.now }) := by
  unfold refundWork
  simp [hlock, hw, hdec, hparse, henc1, henc2, hupd, hcr, hus, hic, hcm, mkRefundTxn]

/-! ## Claim C1 -/

/-- C1.  For every payment request with amount > 0 on an existing wallet
whose sealed balance decrypts to integer B (and with both idempotency
layers missing, so the ledger work actually runs, and no infrastructure
failure injected): if B < amount the operation fails with
insufficient-funds and the state — in particular the wallet balance — is
unchanged (rollback); otherwise it succeeds, the wallet's new sealed
balance decrypts to B − amount, and a transaction record with kind=payment
and status=success is created. -/
theorem C1_payment_debit_or_insufficient {C B : Type} (O : Oracle C B) (env : Env)
    (st : GatewayState C B) (req : PaymentRequest) (w : Wallet C)
    (balanceStr : String) (bal : Int) (c1 c2 : C)
    (hrt : ∀ p c, O.encrypt p = some c → O.decrypt c = some p)
    (hamt : 0 < req.amount) (hamt64 : req.amount ≤ i64max)
    (hcW : env.cacheGetErr = false)
    (hc1 : cacheGet st (buildIdempotencyKey req.merchantID req.referenceID) = none)
    (hdbE : env.dbIdempGetErr = false)
    (hc2 : idempGet st.db (buildIdempotencyKey req.merchantID req.referenceID) = none)
    (hbegin : env.beginErr = false) (hlock : env.lockErr = false)
    (hwallet : findWalletByMerchant st.db req.merchantID req.currency = some w)
    (hdec : O.decrypt w.encryptedBalance = some balanceStr)
    (hparse : parseInt64 balanceStr = some bal)
    (henc1 : O.encrypt (intStr (wrap64 (bal - req.amount))) = some c1)
    (henc2 : O.encrypt (intStr req.amount) = some c2)
    (hupd : env.updateBalanceErr = false) (hcr : env.createTxErr = false)
    (hic : env.idempCreateErr = false) (hcm : env.commitErr = false) :
    (bal < req.amount →
      processPayment O env st req = (.error errInsufficientFunds, st)) ∧
    (¬ bal < req.amount →
      ∃ st' : GatewayState C B,
        processPayment O env st req = (.ok (mkPaymentTxn env req w.id c2), st') ∧
        (mkPaymentTxn env req w.id c2).transactionType = .payment ∧
        (mkPaymentTxn env req w.id c2).status = .success ∧
        mkPaymentTxn env req w.id c2 ∈ st'.db.transactions ∧
        ∃ w', findWalletByID st'.db w.id = some w' ∧
          O.decrypt w'.encryptedBalance = some (intStr (bal - req.amount))) := by
  have hdisp := processPayment_bothMiss O env st req (by omega) hcW hc1 hdbE hc2 hbegin
  constructor
  · intro hlt
    rw [hdisp,
      paymentWork_insufficient O env st.db req _ w balanceStr bal hlock hwallet hdec hparse hlt]
  · intro hge
    have hr := parseInt64_range hparse
    have hw64 : wrap64 (bal - req.amount) = bal - req.amount := by
      apply wrap64_eq_self <;> simp only [i64min, i64max] at hr hamt64 ⊢ <;> omega
    rw [hdisp, paymentWork_success O env st.db req _ w balanceStr bal c1 c2
      hlock hwallet hdec hparse hge henc1 henc2 hupd hcr hic hcm]
    refine ⟨_, rfl, rfl, rfl, ?_, ?_⟩
    · show mkPaymentTxn env req w.id c2 ∈
        (if env.cacheSetErr then _ else _ : GatewayState C B).db.transactions
      have : ∀ stx : GatewayState C B,
          (if env.cacheSetErr then stx
           else cacheSet stx (buildIdempotencyKey req.merchantID req.referenceID)
             (O.marshalTx (mkPaymentTxn env req w.id c2))).db = stx.db := by
        intro stx; split <;> rfl
      rw [this]
      simp [createIdempLog, createTransaction]
    · have hdbeq : ∀ stx : GatewayState C B,
          (if env.cacheSetErr then stx
           else cacheSet stx (buildIdempotencyKey req.merchantID req.referenceID)
             (O.marshalTx (mkPaymentTxn env req w.id c2))).db = stx.db := by
        intro stx; split <;> rfl
      rw [hdbeq]
      have hwid : findWalletByID
          (createIdempLog (createTransaction (updateWalletBalance st.db w.id c1)
            (mkPaymentTxn env req w.id c2))
            { key := buildIdempotencyKey req.merchantID req.referenceID,
              transactionID := env.newID,
              responseJSON := O.marshalTx (mkPaymentTxn env req w.id c2),
              createdAt := env.now }) w.id =
          (findWalletByID st.db w.id).map (fun x => { x with encryptedBalance := c1 }) := by
      -- wallets are untouched by the two inserts
        have : ∀ (dbx : DBState C B) lg t, findWalletByID (createIdempLog (createTransaction dbx t) lg) w.id = findWalletByID dbx w.id := by
          intro dbx lg t; rfl
        rw [this, findWalletByID_updateWalletBalance]
      rw [hwid]
      have hmem : w ∈ st.db.wallets := List.mem_of_find?_eq_some hwallet
      have hsome : ∃ w0, findWalletByID st.db w.id = some w0 := by
        have : (st.db.wallets.find? fun x => x.id = w.id).isSome := by
          rw [List.find?_isSome]
          exact ⟨w, hmem, by simp⟩
        unfold findWalletByID
        exact Option.isSome_iff_exists.mp this
      obtain ⟨w0, hw0⟩ := hsome
      rw [hw0]
      refine ⟨_, rfl, ?_⟩
      have := hrt _ _ henc1
      rw [hw64] at this
      exact this

/-! Projections of the store operations: each Go repository write touches
exactly one entity list. -/

@[simp]
theorem createIdempLog_wallets {C B : Type} (db : DBState C B) (lg : IdempotencyLog B) :
    (createIdempLog db lg).wallets = db.wallets := rfl

@[simp]
theorem createIdempLog_transactions {C B : Type} (db : DBState C B)
    (lg : IdempotencyLog B) : (createIdempLog db lg).transactions = db.transactions := rfl

@[simp]
theorem createIdempLog_idempLogs {C B : Type} (db : DBState C B) (lg : IdempotencyLog B) :
    (createIdempLog db lg).idempLogs = db.idempLogs ++ [lg] := rfl

@[simp]
theorem updateTransactionStatus_wallets {C B : Type} (db : DBState C B) (i : String)
    (s : TransactionStatus) (n : Int) :
    (updateTransactionStatus db i s n).wallets = db.wallets := rfl

@[simp]
theorem updateTransactionStatus_idempLogs {C B : Type} (db : DBState C B) (i : String)
    (s : TransactionStatus) (n : Int) :
    (updateTransactionStatus db i s n).idempLogs = db.idempLogs := rfl

@[simp]
theorem createTransaction_wallets {C B : Type} (db : DBState C B) (t : Transaction C) :
    (createTransaction db t).wallets = db.wallets := rfl

@[simp]
theorem createTransaction_transactions {C B : Type} (db : DBState C B)
    (t : Transaction C) : (createTransaction db t).transactions = db.transactions ++ [t] := rfl

@[simp]
theorem createTransaction_idempLogs {C B : Type} (db : DBState C B) (t : Transaction C) :
    (createTransaction db t).idempLogs = db.idempLogs := rfl

@[simp]
theorem updateWalletBalance_transactions {C B : Type} (db : DBState C B) (wid : String)
    (c : C) : (updateWalletBalance db wid c).transactions = db.transactions := rfl

@[simp]
theorem updateWalletBalance_idempLogs {C B : Type} (db : DBState C B) (wid : String)
    (c : C) : (updateWalletBalance db wid c).idempLogs = db.idempLogs := rfl

@[simp]
theorem cacheSet_db {C B : Type} (st : GatewayState C B) (k : String) (v : B) :
    (cacheSet st k v).db = st.db := rfl

theorem findWalletByID_createIdempLog {C B : Type} (db : DBState C B)
    (lg : IdempotencyLog B) (wid : String) :
    findWalletByID (createIdempLog db lg) wid = findWalletByID db wid := rfl

theorem findWalletByID_updateTransactionStatus {C B : Type} (db : DBState C B)
    (i : String) (s : TransactionStatus) (n : Int) (wid : String) :
    findWalletByID (updateTransactionStatus db i s n) wid = findWalletByID db wid := rfl

theorem findWalletByID_createTransaction {C B : Type} (db : DBState C B)
    (t : Transaction C) (wid : String) :
    findWalletByID (createTransaction db t) wid = findWalletByID db wid := rfl

/-! ## Claim C3 -/

/-- Inversion of a successful refund transaction body: a success means the
committed store is exactly the input store with the four writes applied in
source order. -/
theorem refundWork_ok_inv {C B : Type} {O : Oracle C B} {env : Env} {db : DBState C B}
    {req : RefundRequest} {key : String} {origTx : Transaction C} {ra : Int}
    {txn : Transaction C} {resp : B} {db' : DBState C B}
    (h : refundWork O env db req key origTx ra = .ok (txn, resp, db')) :
    ∃ w c1 c2, findWalletByID db origTx.walletID = some w ∧
      txn = mkRefundTxn env req w.id origTx.id ra c2 ∧
      resp = O.marshalTx txn ∧
      db' = createIdempLog
        (updateTransactionStatus (createTransaction (updateWalletBalance db w.id c1) txn)
          origTx.id .reversed env.now)
        { key := key, transactionID := txn.id, responseJSON := resp,
          createdAt := env.now } := by
  unfold refundWork at h
  by_cases hl : env.lockErr = true
  · rw [if_pos hl] at h; simp at h
  rw [if_neg hl] at h
  rcases hw : findWalletByID db origTx.walletID with _ | w <;> rw [hw] at h
  · simp at h
  simp only at h
  rcases hd : O.decrypt w.encryptedBalance with _ | bs <;> rw [hd] at h
  · simp at h
  simp only at h
  rcases hp : parseInt64 bs with _ | bal <;> rw [hp] at h
  · simp at h
  simp only at h
  rcases he1 : O.encrypt (intStr (wrap64 (bal + ra))) with _ | c1 <;> rw [he1] at h
  · simp at h
  simp only at h
  rcases he2 : O.encrypt (intStr ra) with _ | c2 <;> rw [he2] at h
  · simp at h
  simp only at h
  by_cases hub : env.updateBalanceErr = true
  · rw [if_pos hub] at h; simp at h
  rw [if_neg hub] at h
  by_cases hcr : env.createTxErr = true
  · rw [if_pos hcr] at h; simp at h
  rw [if_neg hcr] at h
  by_cases hus : env.updateStatusErr = true
  · rw [if_pos hus] at h; simp at h
  rw [if_neg hus] at h
  by_cases hicr : env.idempCreateErr = true
  · rw [if_pos hicr] at h; simp at h
  rw [if_neg hicr] at h
  by_cases hcm : env.commitErr = true
  · rw [if_pos hcm] at h; simp at h
  rw [if_neg hcm] at h
  simp only [Except.ok.injEq, Prod.mk.injEq] at h
  obtain ⟨h1, h2, h3⟩ := h
  refine ⟨w, c1, c2, rfl, h1.symm, ?_, ?_⟩
  · rw [← h2, h1]
  · rw [← h3, ← h1, ← h2]

/-- C3.  Every refund that commits writes the refund row, the original's
transition to reversed, the wallet balance update and the idempotency
record in the one durable transaction whose commit produced the success;
on every error path the observable state is exactly the pre-state
(rollback).  A returned success either replayed a cached response (store
unchanged) or committed all four writes.  The freshness hypothesis models
`uuid.New()` never colliding with an existing row. -/
theorem C3_refund_commit_atomicity {C B : Type} (O : Oracle C B) (env : Env)
    (st : GatewayState C B) (req : RefundRequest)
    (hfresh : ∀ t ∈ st.db.transactions, ¬ t.id = env.newID) :
    match processRefund O env st req with
    | (.error _, st') => st' = st
    | (.ok txn, st') => st'.db = st.db ∨
        refundCommitted st.db st'.db txn
          (buildRefundIdempotencyKey req.merchantID req.originalReferenceID) := by
  unfold processRefund
  simp only
  rcases hch : (if env.cacheGetErr = true then none
      else cacheGet st (buildRefundIdempotencyKey req.merchantID req.originalReferenceID))
    with _ | bytes
  swap
  · rcases hu : O.unmarshalTx bytes with _ | t <;>
      simp [unmarshalCachedTransaction, hu]
  by_cases hdbe : env.dbIdempGetErr = true
  · simp [hdbe]
  rw [if_neg hdbe]
  rcases hig : idempGet st.db
      (buildRefundIdempotencyKey req.merchantID req.originalReferenceID) with _ | lg
  swap
  · rcases hu : O.unmarshalTx lg.responseJSON with _ | t <;>
      simp [unmarshalCachedTransaction, hu]
  by_cases hgr : env.getByRefErr = true
  · simp [hgr]
  rw [if_neg hgr]
  rcases hgo : getByReference st.db req.merchantID req.originalReferenceID with _ | origTx
  · simp
  simp only
  by_cases hrf : origTx.isRefundable = true
  swap
  · rw [if_pos (by simpa using hrf)]
  rw [if_neg (by simpa using hrf)]
  by_cases hcre : env.checkRefundExistsErr = true
  · simp [hcre]
  rw [if_neg hcre]
  by_cases hdup : checkRefundExists st.db origTx.id = true
  · rw [if_pos hdup]
  rw [if_neg hdup]
  rcases hda : determineRefundAmount origTx req.amount with e | ra
  · simp
  simp only
  by_cases hbg : env.beginErr = true
  · simp [hbg]
  rw [if_neg hbg]
  rcases hwk : refundWork O env st.db req
      (buildRefundIdempotencyKey req.merchantID req.originalReferenceID) origTx ra
    with e | ⟨txn, resp, db'⟩
  · simp
  simp only
  right
  obtain ⟨w, c1, c2, hw, htxn, hresp, hdb'⟩ := refundWork_ok_inv hwk
  have hstdb : (if env.cacheSetErr = true then ({ st with db := db' } : GatewayState C B)
      else cacheSet { st with db := db' }
        (buildRefundIdempotencyKey req.merchantID req.originalReferenceID) resp).db
      = db' := by
    split <;> rfl
  rw [hstdb]
  have horigmem : origTx ∈ st.db.transactions := mem_of_getByReference hgo
  have hne : ¬ txn.id = origTx.id := by
    rw [htxn]
    simp only [mkRefundTxn]
    intro hcontra
    exact hfresh origTx horigmem hcontra.symm
  subst hdb'
  constructor
  · rw [htxn]; rfl
  constructor
  · rw [htxn]; rfl
  constructor
  · -- refund row present in the committed store
    simp only [createIdempLog_transactions]
    exact mem_updateTransactionStatus_of_ne _ _ _ _
      (by simp) hne
  constructor
  · -- original reversed in the same commit
    refine ⟨origTx.id, by rw [htxn]; rfl, ?_⟩
    refine ⟨{ origTx with status := .reversed, processedAt := some env.now }, ?_, rfl, rfl⟩
    simp only [createIdempLog_transactions]
    exact mem_updateTransactionStatus_self _ _ _ (by simp [horigmem])
  constructor
  · -- idempotency record points at the refund row
    refine ⟨{ key := buildRefundIdempotencyKey req.merchantID req.originalReferenceID,
              transactionID := txn.id, responseJSON := resp, createdAt := env.now },
      ?_, rfl⟩
    unfold idempGet
    simp only [createIdempLog_idempLogs, updateTransactionStatus_idempLogs,
      createTransaction_idempLogs, updateWalletBalance_idempLogs]
    apply find?_append_right_of_none
    · unfold idempGet at hig; exact hig
    · simp
  · -- wallet row updated in place
    refine ⟨c1, ?_⟩
    rw [htxn]
    show findWalletByID _ w.id =
      (findWalletByID st.db w.id).map fun x => { x with encryptedBalance := c1 }
    rw [findWalletByID_createIdempLog, findWalletByID_updateTransactionStatus,
      findWalletByID_createTransaction, findWalletByID_updateWalletBalance]

/-! ## Claim C2 (amended: the durable-log hit does not repopulate the KV
cache; the source returns the stored bytes without any cache write) -/

/-- C2 (amended).  For both ledger operations, once validation passes the
lookup-or-compute sequence is: a KV-cache hit returns the deserialized
cached response and leaves the state untouched (no ledger work); on a KV
miss (or KV read error), a durable idempotency-log hit returns the stored
response bytes, deserialized, again leaving the state untouched — in
particular the KV cache is NOT repopulated; and the durable store can only
change when both layers miss. -/
theorem C2_two_tier_idempotency_dispatch {C B : Type} (O : Oracle C B) (env : Env)
    (st : GatewayState C B) (reqP : PaymentRequest) (reqR : RefundRequest) :
    (¬ reqP.amount ≤ 0 → env.cacheGetErr = false →
      ∀ bytes, cacheGet st (buildIdempotencyKey reqP.merchantID reqP.referenceID)
        = some bytes →
      processPayment O env st reqP = (unmarshalCachedTransaction O bytes, st)) ∧
    (¬ reqP.amount ≤ 0 →
      (env.cacheGetErr = true ∨
        cacheGet st (buildIdempotencyKey reqP.merchantID reqP.referenceID) = none) →
      env.dbIdempGetErr = false →
      ∀ lg, idempGet st.db (buildIdempotencyKey reqP.merchantID reqP.referenceID)
        = some lg →
      processPayment O env st reqP = (unmarshalCachedTransaction O lg.responseJSON, st)) ∧
    ((processPayment O env st reqP).2.db ≠ st.db →
      (env.cacheGetErr = true ∨
        cacheGet st (buildIdempotencyKey reqP.merchantID reqP.referenceID) = none) ∧
      idempGet st.db (buildIdempotencyKey reqP.merchantID reqP.referenceID) = none) ∧
    (env.cacheGetErr = false →
      ∀ bytes, cacheGet st
          (buildRefundIdempotencyKey reqR.merchantID reqR.originalReferenceID)
        = some bytes →
      processRefund O env st reqR = (unmarshalCachedTransaction O bytes, st)) ∧
    ((env.cacheGetErr = true ∨
        cacheGet st (buildRefundIdempotencyKey reqR.merchantID reqR.originalReferenceID)
          = none) →
      env.dbIdempGetErr = false →
      ∀ lg, idempGet st.db
          (buildRefundIdempotencyKey reqR.merchantID reqR.originalReferenceID)
        = some lg →
      processRefund O env st reqR = (unmarshalCachedTransaction O lg.responseJSON, st)) ∧
    ((processRefund O env st reqR).2.db ≠ st.db →
      (env.cacheGetErr = true ∨
        cacheGet st (buildRefundIdempotencyKey reqR.merchantID reqR.originalReferenceID)
          = none) ∧
      idempGet st.db (buildRefundIdempotencyKey reqR.merchantID reqR.originalReferenceID)
        = none) := by
  refine ⟨?_, ?_, ?_, ?_, ?_, ?_⟩
  · intro hpos hcg bytes hb
    unfold processPayment
    rw [if_neg hpos]
    simp [hcg, hb]
  · intro hpos hcm hdb lg hlg
    unfold processPayment
    rw [if_neg hpos]
    rcases hcm with h | h
    · simp [h, hdb, hlg]
    · cases hcge : env.cacheGetErr <;> simp [h, hcge, hdb, hlg]
  · unfold processPayment
    by_cases hpos : reqP.amount ≤ 0
    · rw [if_pos hpos]; intro hne; exact absurd rfl hne
    rw [if_neg hpos]
    simp only
    rcases hch : (if env.cacheGetErr = true then none
        else cacheGet st (buildIdempotencyKey reqP.merchantID reqP.referenceID))
      with _ | bytes
    swap
    · intro hne; exact absurd rfl hne
    have hor : env.cacheGetErr = true ∨
        cacheGet st (buildIdempotencyKey reqP.merchantID reqP.referenceID) = none := by
      by_cases hcge : env.cacheGetErr = true
      · exact Or.inl hcge
      · exact Or.inr (by rwa [if_neg hcge] at hch)
    by_cases hdbe : env.dbIdempGetErr = true
    · rw [if_pos hdbe]; intro hne; exact absurd rfl hne
    rw [if_neg hdbe]
    rcases hig : idempGet st.db (buildIdempotencyKey reqP.merchantID reqP.referenceID)
      with _ | lg
    swap
    · intro hne; exact absurd rfl hne
    exact fun _ => ⟨hor, rfl⟩
  · intro hcg bytes hb
    unfold processRefund
    simp [hcg, hb]
  · intro hcm hdb lg hlg
    unfold processRefund
    rcases hcm with h | h
    · simp [h, hdb, hlg]
    · cases hcge : env.cacheGetErr <;> simp [h, hcge, hdb, hlg]
  · unfold processRefund
    simp only
    rcases hch : (if env.cacheGetErr = true then none
        else cacheGet st (buildRefundIdempotencyKey reqR.merchantID reqR.originalReferenceID))
      with _ | bytes
    swap
    · intro hne; exact absurd rfl hne
    have hor : env.cacheGetErr = true ∨
        cacheGet st (buildRefundIdempotencyKey reqR.merchantID reqR.originalReferenceID)
          = none := by
      by_cases hcge : env.cacheGetErr = true
      · exact Or.inl hcge
      · exact Or.inr (by rwa [if_neg hcge] at hch)
    by_cases hdbe : env.dbIdempGetErr = true
    · rw [if_pos hdbe]; intro hne; exact absurd rfl hne
    rw [if_neg hdbe]
    rcases hig : idempGet st.db
        (buildRefundIdempotencyKey reqR.merchantID reqR.originalReferenceID)
      with _ | lg
    swap
    · intro hne; exact absurd rfl hne
    exact fun _ => ⟨hor, rfl⟩

/-! ## Claim C5 -/

/-- C5.  For a refund request on a refundable original payment of amount A
(reached with both idempotency layers missing and no duplicate refund):
when no amount is supplied the refund amount is exactly A; a supplied
amount ≤ 0 fails with invalid-amount and a supplied amount > A fails with
refund-amount-exceeds-original, the state unchanged; otherwise the
committed wallet balance decrypts to B plus the refund amount and the
refund row's reference string is `REFUND-` followed by the original
reference. -/
theorem C5_refund_amount_rules {C B : Type} (O : Oracle C B) (env : Env)
    (st : GatewayState C B) (req : RefundRequest) (origTx : Transaction C)
    (w : Wallet C) (balanceStr : String) (bal : Int)
    (hrt : ∀ p c, O.encrypt p = some c → O.decrypt c = some p)
    (hcW : env.cacheGetErr = false)
    (hc1 : cacheGet st (buildRefundIdempotencyKey req.merchantID req.originalReferenceID)
      = none)
    (hdbE : env.dbIdempGetErr = false)
    (hc2 : idempGet st.db (buildRefundIdempotencyKey req.merchantID req.originalReferenceID)
      = none)
    (hgr : env.getByRefErr = false)
    (hgo : getByReference st.db req.merchantID req.originalReferenceID = some origTx)
    (hrf : origTx.isRefundable = true)
    (hcre : env.checkRefundExistsErr = false)
    (hdup : checkRefundExists st.db origTx.id = false)
    (hbg : env.beginErr = false) (hlock : env.lockErr = false)
    (hw : findWalletByID st.db origTx.walletID = some w)
    (hdec : O.decrypt w.encryptedBalance = some balanceStr)
    (hparse : parseInt64 balanceStr = some bal) :
    (∀ a, req.amount = some a → a ≤ 0 →
      processRefund O env st req = (.error errInvalidAmount, st)) ∧
    (∀ a, req.amount = some a → 0 < a → origTx.amount < a →
      processRefund O env st req = (.error errRefundAmountExceedsOriginal, st)) ∧
    (∀ ra, ((req.amount = none ∧ ra = origTx.amount) ∨
            (req.amount = some ra ∧ 0 < ra ∧ ra ≤ origTx.amount)) →
      i64min ≤ bal + ra → bal + ra ≤ i64max →
      ∀ c1 c2, O.encrypt (intStr (wrap64 (bal + ra))) = some c1 →
        O.encrypt (intStr ra) = some c2 →
        env.updateBalanceErr = false → env.createTxErr = false →
        env.updateStatusErr = false → env.idempCreateErr = false →
        env.commitErr = false →
        ∃ st', processRefund O env st req =
            (.ok (mkRefundTxn env req w.id origTx.id ra c2), st') ∧
          (mkRefundTxn env req w.id origTx.id ra c2).amount = ra ∧
          (mkRefundTxn env req w.id origTx.id ra c2).referenceID
            = "REFUND-" ++ req.originalReferenceID ∧
          ∃ w', findWalletByID st'.db w.id = some w' ∧
            O.decrypt w'.encryptedBalance = some (intStr (bal + ra))) := by
  have hdisp := processRefund_bothMiss O env st req hcW hc1 hdbE hc2
  refine ⟨?_, ?_, ?_⟩
  · intro a ha hle
    rw [hdisp]
    simp [hgr, hgo, hrf, hcre, hdup, determineRefundAmount, ha, hle]
  · intro a ha hpos hgt
    rw [hdisp]
    simp [hgr, hgo, hrf, hcre, hdup, determineRefundAmount, ha,
      not_le.mpr hpos, hgt, not_le.mpr hgt]
  · intro ra hra hlo hhi c1 c2 henc1 henc2 hupd hcr hus hic hcm
    have hda : determineRefundAmount origTx req.amount = .ok ra := by
      rcases hra with ⟨hnone, hval⟩ | ⟨hsome, hpos, hle⟩
      · rw [hnone, hval]; rfl
      · rw [hsome]
        simp [determineRefundAmount, not_le.mpr hpos, not_lt.mpr hle]
    rw [hdisp]
    simp only [hgr, Bool.false_eq_true, if_false, hgo, hrf, not_true, hcre, hdup,
      hbg, hda]
    rw [refundWork_success O env st.db req _ origTx ra w balanceStr bal c1 c2
      hlock hw hdec hparse henc1 henc2 hupd hcr hus hic hcm]
    simp only
    refine ⟨_, rfl, rfl, rfl, ?_⟩
    have hstdb : ∀ stx : GatewayState C B,
        (if env.cacheSetErr = true then stx
         else cacheSet stx (buildRefundIdempotencyKey req.merchantID req.originalReferenceID)
           (O.marshalTx (mkRefundTxn env req w.id origTx.id ra c2))).db = stx.db := by
      intro stx; split <;> rfl
    rw [hstdb]
    show (∃ w', findWalletByID (createIdempLog (updateTransactionStatus (createTransaction
      (updateWalletBalance st.db w.id c1) (mkRefundTxn env req w.id origTx.id ra c2))
      origTx.id .reversed env.now) _) w.id = some w' ∧ _)
    rw [findWalletByID_createIdempLog, findWalletByID_updateTransactionStatus,
      findWalletByID_createTransaction, findWalletByID_updateWalletBalance]
    have hmem : w ∈ st.db.wallets := List.mem_of_find?_eq_some hw
    have hsome : ∃ w0, findWalletByID st.db w.id = some w0 := by
      have : (st.db.wallets.find? fun x => x.id = w.id).isSome := by
        rw [List.find?_isSome]
        exact ⟨w, hmem, by simp⟩
      unfold findWalletByID
      exact Option.isSome_iff_exists.mp this
    obtain ⟨w0, hw0⟩ := hsome
    rw [hw0]
    refine ⟨_, rfl, ?_⟩
    have hw64 : wrap64 (bal + ra) = bal + ra := wrap64_eq_self hlo hhi
    have := hrt _ _ henc1
    rwa [hw64] at this

/-! Further bookkeeping lemmas used by the partial-refund claim. -/

theorem updateTransactionStatus_status_of_id {C B : Type} (db : DBState C B) (i : String)
    (s : TransactionStatus) (n : Int) :
    ∀ t' ∈ (updateTransactionStatus db i s n).transactions, t'.id = i → t'.status = s := by
  intro t' ht' hid
  unfold updateTransactionStatus at ht'
  simp only [List.mem_map] at ht'
  obtain ⟨x, hx, hfx⟩ := ht'
  by_cases h : x.id = i
  · rw [if_pos h] at hfx
    rw [← hfx]
  · rw [if_neg h] at hfx
    rw [← hfx] at hid
    exact absurd hid h

theorem isRefundable_false_of_reversed {C : Type} {t : Transaction C}
    (h : t.status = .reversed) : t.isRefundable = false := by
  simp [Transaction.isRefundable, h]

@[simp]
theorem cacheGet_cacheSet_self {C B : Type} (st : GatewayState C B) (k : String) (v : B) :
    cacheGet (cacheSet st k v) k = some v := by
  unfold cacheGet cacheSet
  simp [List.find?]

@[simp]
theorem cacheGet_db_update {C B : Type} (st : GatewayState C B) (db : DBState C B)
    (k : String) : cacheGet { st with db := db } k = cacheGet st k := rfl

/-- Replay behavior of `ProcessRefund` on a state whose durable idempotency
record under the refund key holds the stored response bytes (and whose KV
cache either misses or holds the same bytes): the call leaves the state
unchanged and returns either the deserialized stored response or an
internal error — never a new refund. -/
theorem processRefund_replay {C B : Type} (O : Oracle C B) (env' : Env)
    (st2 : GatewayState C B) (req2 : RefundRequest) (lg : IdempotencyLog B)
    (respBytes : B)
    (hdur : idempGet st2.db
      (buildRefundIdempotencyKey req2.merchantID req2.originalReferenceID) = some lg)
    (hlg : lg.responseJSON = respBytes)
    (hkv : cacheGet st2
        (buildRefundIdempotencyKey req2.merchantID req2.originalReferenceID) = none ∨
      cacheGet st2
        (buildRefundIdempotencyKey req2.merchantID req2.originalReferenceID)
        = some respBytes) :
    (processRefund O env' st2 req2).2 = st2 ∧
    ((processRefund O env' st2 req2).1 = unmarshalCachedTransaction O respBytes ∨
     (processRefund O env' st2 req2).1 = .error internalError) := by
  unfold processRefund
  by_cases hcg : env'.cacheGetErr = true
  · by_cases hdbe : env'.dbIdempGetErr = true
    · simp [hcg, hdbe]
    · simp [hcg, hdbe, hdur, hlg]
  · rcases hkv with h | h
    · by_cases hdbe : env'.dbIdempGetErr = true
      · simp [hcg, h, hdbe]
      · simp [hcg, h, hdbe, hdur, hlg]
    · simp [hcg, h]

/-! ## Claim C4 (amended: the commit-time loser surfaces the internal
store error SYS_001, not duplicate-transaction; only the pre-transaction
check yields duplicate-transaction) -/

/-- C4 (amended).  When the pre-transaction duplicate check finds an
existing non-failed refund, the caller gets duplicate-transaction; but a
loser whose in-transaction insert or commit fails on the uniqueness
violation (modelled by the failing idempotency-record insert) gets the
internal store error SYS_001 — the source wraps every repository error of
the transaction body in `apperror.InternalError` and never maps a
uniqueness violation to `ErrDuplicateTransaction`. -/
theorem C4_commit_race_error_code {C B : Type} (O : Oracle C B) (env : Env)
    (st : GatewayState C B) (req : RefundRequest) (origTx : Transaction C)
    (w : Wallet C) (balanceStr : String) (bal : Int) (ra : Int) (c1 c2 : C)
    (hcW : env.cacheGetErr = false)
    (hc1 : cacheGet st (buildRefundIdempotencyKey req.merchantID req.originalReferenceID)
      = none)
    (hdbE : env.dbIdempGetErr = false)
    (hc2 : idempGet st.db (buildRefundIdempotencyKey req.merchantID req.originalReferenceID)
      = none)
    (hgr : env.getByRefErr = false)
    (hgo : getByReference st.db req.merchantID req.originalReferenceID = some origTx)
    (hrf : origTx.isRefundable = true)
    (hcre : env.checkRefundExistsErr = false)
    (hda : determineRefundAmount origTx req.amount = .ok ra)
    (hbg : env.beginErr = false) (hlock : env.lockErr = false)
    (hw : findWalletByID st.db origTx.walletID = some w)
    (hdec : O.decrypt w.encryptedBalance = some balanceStr)
    (hparse : parseInt64 balanceStr = some bal)
    (henc1 : O.encrypt (intStr (wrap64 (bal + ra))) = some c1)
    (henc2 : O.encrypt (intStr ra) = some c2)
    (hupd : env.updateBalanceErr = false) (hcr : env.createTxErr = false)
    (hus : env.updateStatusErr = false) :
    (checkRefundExists st.db origTx.id = true →
      processRefund O env st req = (.error errDuplicateTransaction, st)) ∧
    (checkRefundExists st.db origTx.id = false →
      env.idempCreateErr = true →
      processRefund O env st req = (.error internalError, st) ∧
      internalError ≠ errDuplicateTransaction) := by
  have hdisp := processRefund_bothMiss O env st req hcW hc1 hdbE hc2
  constructor
  · intro hdup
    rw [hdisp]
    simp [hgr, hgo, hrf, hcre, hdup]
  · intro hdup hic
    have hwkerr : refundWork O env st.db req
        (buildRefundIdempotencyKey req.merchantID req.originalReferenceID) origTx ra
        = .error internalError := by
      unfold refundWork
      simp [hlock, hw, hdec, hparse, henc1, henc2, hupd, hcr, hus, hic]
    constructor
    · rw [hdisp]
      simp [hgr, hgo, hrf, hcre, hdup, hda, hbg, hwkerr]
    · decide

/-! ## Claim C7 (amended: only the payment validates the amount before the
idempotency lookup; the refund consults both idempotency layers first and
validates the supplied amount only after the original has been read) -/

/-- C7 (amended).  A payment with a non-positive amount always fails with
invalid-amount before any idempotency lookup.  A refund with a
non-positive supplied amount is answered from the KV cache (or the durable
log) when its idempotency key is cached — the source validates the refund
amount only after the idempotency layers and the original-transaction
reads; it fails with invalid-amount when both layers miss and the original
is refundable with no duplicate. -/
theorem C7_validation_vs_idempotency_order {C B : Type} (O : Oracle C B) (env : Env)
    (st : GatewayState C B) (reqP : PaymentRequest) (reqR : RefundRequest)
    (origTx : Transaction C) :
    (reqP.amount ≤ 0 → processPayment O env st reqP = (.error errInvalidAmount, st)) ∧
    (∀ a, reqR.amount = some a → a ≤ 0 → env.cacheGetErr = false →
      ∀ bytes, cacheGet st
          (buildRefundIdempotencyKey reqR.merchantID reqR.originalReferenceID)
        = some bytes →
      processRefund O env st reqR = (unmarshalCachedTransaction O bytes, st)) ∧
    (∀ a, reqR.amount = some a → a ≤ 0 →
      env.cacheGetErr = false →
      cacheGet st (buildRefundIdempotencyKey reqR.merchantID reqR.originalReferenceID)
        = none →
      env.dbIdempGetErr = false →
      idempGet st.db (buildRefundIdempotencyKey reqR.merchantID reqR.originalReferenceID)
        = none →
      env.getByRefErr = false →
      getByReference st.db reqR.merchantID reqR.originalReferenceID = some origTx →
      origTx.isRefundable = true →
      env.checkRefundExistsErr = false →
      checkRefundExists st.db origTx.id = false →
      processRefund O env st reqR = (.error errInvalidAmount, st)) := by
  refine ⟨?_, ?_, ?_⟩
  · intro hle
    unfold processPayment
    rw [if_pos hle]
  · intro a ha hle hcg bytes hb
    unfold processRefund
    simp [hcg, hb]
  · intro a ha hle hcW hc1 hdbE hc2 hgr hgo hrf hcre hdup
    rw [processRefund_bothMiss O env st reqR hcW hc1 hdbE hc2]
    simp [hgr, hgo, hrf, hcre, hdup, determineRefundAmount, ha, hle]

/-! ## Claim C10 (amended: a later refund for the same original is replayed
from the idempotency layers, not failed; money still cannot move again) -/

/-- C10 (amended).  After a successful partial refund (supplied amount
strictly below the original's), the original payment's status is set to
reversed — every row with its id is reversed and hence no longer
refundable.  A later refund request for the same `(merchant, original
reference)` pair does not fail with duplicate-transaction or
invalid-refund: the shared idempotency key `{merchant}:refund:{reference}`
is now occupied durably (and in the KV cache when the post-commit write
succeeded), so the request is answered with the first refund's replayed
response (or an infrastructure error), leaving the state unchanged — the
un-refunded remainder can never be refunded. -/
theorem C10_partial_refund_blocks_remainder {C B : Type} (O : Oracle C B) (env : Env)
    (st : GatewayState C B) (req : RefundRequest) (origTx : Transaction C)
    (w : Wallet C) (balanceStr : String) (bal ra : Int) (c1 c2 : C)
    (hcW : env.cacheGetErr = false)
    (hc1 : cacheGet st (buildRefundIdempotencyKey req.merchantID req.originalReferenceID)
      = none)
    (hdbE : env.dbIdempGetErr = false)
    (hc2 : idempGet st.db (buildRefundIdempotencyKey req.merchantID req.originalReferenceID)
      = none)
    (hgr : env.getByRefErr = false)
    (hgo : getByReference st.db req.merchantID req.originalReferenceID = some origTx)
    (hrf : origTx.isRefundable = true)
    (hcre : env.checkRefundExistsErr = false)
    (hdup : checkRefundExists st.db origTx.id = false)
    (hbg : env.beginErr = false) (hlock : env.lockErr = false)
    (hw : findWalletByID st.db origTx.walletID = some w)
    (hdec : O.decrypt w.encryptedBalance = some balanceStr)
    (hparse : parseInt64 balanceStr = some bal)
    (hamt : req.amount = some ra) (hpos : 0 < ra) (hlt : ra < origTx.amount)
    (henc1 : O.encrypt (intStr (wrap64 (bal + ra))) = some c1)
    (henc2 : O.encrypt (intStr ra) = some c2)
    (hupd : env.updateBalanceErr = false) (hcr : env.createTxErr = false)
    (hus : env.updateStatusErr = false) (hic : env.idempCreateErr = false)
    (hcm : env.commitErr = false) :
    (processRefund O env st req).1
      = .ok (mkRefundTxn env req w.id origTx.id ra c2) ∧
    (mkRefundTxn env req w.id origTx.id ra c2).amount = ra ∧
    (∀ ot ∈ (processRefund O env st req).2.db.transactions, ot.id = origTx.id →
      ot.status = .reversed ∧ ot.isRefundable = false) ∧
    (∀ (env' : Env) (req2 : RefundRequest), req2.merchantID = req.merchantID →
      req2.originalReferenceID = req.originalReferenceID →
      (processRefund O env' (processRefund O env st req).2 req2).2
        = (processRefund O env st req).2 ∧
      ((processRefund O env' (processRefund O env st req).2 req2).1
          = unmarshalCachedTransaction O
              (O.marshalTx (mkRefundTxn env req w.id origTx.id ra c2)) ∨
       (processRefund O env' (processRefund O env st req).2 req2).1
          = .error internalError)) := by
  have hda : determineRefundAmount origTx req.amount = .ok ra := by
    rw [hamt]
    simp [determineRefundAmount, not_le.mpr hpos, not_lt.mpr (le_of_lt hlt)]
  have hdisp := processRefund_bothMiss O env st req hcW hc1 hdbE hc2
  have hwk := refundWork_success O env st.db req
    (buildRefundIdempotencyKey req.merchantID req.originalReferenceID)
    origTx ra w balanceStr bal c1 c2 hlock hw hdec hparse henc1 henc2 hupd hcr hus hic hcm
  have hres : processRefund O env st req =
      (.ok (mkRefundTxn env req w.id origTx.id ra c2),
        if env.cacheSetErr = true then
          { st with db := (createIdempLog
              (updateTransactionStatus
                (createTransaction (updateWalletBalance st.db w.id c1)
                  (mkRefundTxn env req w.id origTx.id ra c2))
                origTx.id .reversed env.now)
              { key := buildRefundIdempotencyKey req.merchantID req.originalReferenceID,
                transactionID := env.newID,
                responseJSON := O.marshalTx (mkRefundTxn env req w.id origTx.id ra c2),
                createdAt := env.now }) }
        else cacheSet
          { st with db := (createIdempLog
              (updateTransactionStatus
                (createTransaction (updateWalletBalance st.db w.id c1)
                  (mkRefundTxn env req w.id origTx.id ra c2))
                origTx.id .reversed env.now)
              { key := buildRefundIdempotencyKey req.merchantID req.originalReferenceID,
                transactionID := env.newID,
                responseJSON := O.marshalTx (mkRefundTxn env req w.id origTx.id ra c2),
                createdAt := env.now }) }
          (buildRefundIdempotencyKey req.merchantID req.originalReferenceID)
          (O.marshalTx (mkRefundTxn env req w.id origTx.id ra c2))) := by
    rw [hdisp]
    simp only [hgr, Bool.false_eq_true, if_false, hgo, hrf, not_true, hcre, hdup, hbg,
      hda, hwk]
  have hdb2 : (processRefund O env st req).2.db =
      createIdempLog
        (updateTransactionStatus
          (createTransaction (updateWalletBalance st.db w.id c1)
            (mkRefundTxn env req w.id origTx.id ra c2))
          origTx.id .reversed env.now)
        { key := buildRefundIdempotencyKey req.merchantID req.originalReferenceID,
          transactionID := env.newID,
          responseJSON := O.marshalTx (mkRefundTxn env req w.id origTx.id ra c2),
          createdAt := env.now } := by
    rw [hres]
    split <;> rfl
  refine ⟨by rw [hres], rfl, ?_, ?_⟩
  · intro ot hot hid
    rw [hdb2] at hot
    simp only [createIdempLog_transactions] at hot
    have hstat := updateTransactionStatus_status_of_id _ _ _ _ ot hot hid
    exact ⟨hstat, isRefundable_false_of_reversed hstat⟩
  · intro env' req2 hm hr
    have hkey2 : buildRefundIdempotencyKey req2.merchantID req2.originalReferenceID
        = buildRefundIdempotencyKey req.merchantID req.originalReferenceID := by
      rw [hm, hr]
    have hdur : idempGet (processRefund O env st req).2.db
        (buildRefundIdempotencyKey req2.merchantID req2.originalReferenceID)
        = some ⟨buildRefundIdempotencyKey req.merchantID req.originalReferenceID,
            env.newID, O.marshalTx (mkRefundTxn env req w.id origTx.id ra c2),
            env.now⟩ := by
      rw [hkey2, hdb2]
      unfold idempGet
      simp only [createIdempLog_idempLogs, updateTransactionStatus_idempLogs,
        createTransaction_idempLogs, updateWalletBalance_idempLogs]
      apply find?_append_right_of_none
      · unfold idempGet at hc2; exact hc2
      · simp
    have hkv : cacheGet (processRefund O env st req).2
          (buildRefundIdempotencyKey req2.merchantID req2.originalReferenceID) = none ∨
        cacheGet (processRefund O env st req).2
          (buildRefundIdempotencyKey req2.merchantID req2.originalReferenceID)
          = some (O.marshalTx (mkRefundTxn env req w.id origTx.id ra c2)) := by
      rw [hkey2, hres]
      by_cases hcs : env.cacheSetErr = true
      · rw [if_pos hcs]
        left
        rw [cacheGet_db_update]
        exact hc1
      · rw [if_neg hcs]
        right
        exact cacheGet_cacheSet_self _ _ _
    exact processRefund_replay O env' (processRefund O env st req).2 req2 _ _ hdur rfl hkv

/-! ## Behavior of the webhook delivery loop -/

theorem deliverAux_iterations_le (respond : Nat → AttemptOutcome) :
    ∀ (fuel attempt : Nat), (deliverAux respond attempt fuel).iterations ≤ fuel := by
  intro fuel
  induction fuel with
  | zero => intro attempt; simp [deliverAux]
  | succ fuel ih =>
    intro attempt
    simp only [deliverAux]
    cases hresp : respond attempt <;> simp only
    · exact Nat.succ_le_succ (ih (attempt + 1))
    · exact Nat.succ_le_succ (ih (attempt + 1))
    · split
      · simp
      · exact Nat.succ_le_succ (ih (attempt + 1))

theorem deliverAux_posts_le_iterations (respond : Nat → AttemptOutcome) :
    ∀ (fuel attempt : Nat),
      (deliverAux respond attempt fuel).posts ≤ (deliverAux respond attempt fuel).iterations := by
  intro fuel
  induction fuel with
  | zero => intro attempt; simp [deliverAux]
  | succ fuel ih =>
    intro attempt
    simp only [deliverAux]
    cases hresp : respond attempt <;> simp only
    · exact Nat.le_succ_of_le (ih (attempt + 1))
    · exact Nat.succ_le_succ (ih (attempt + 1))
    · split
      · simp
      · exact Nat.succ_le_succ (ih (attempt + 1))

theorem deliverAux_delivered_iff (respond : Nat → AttemptOutcome) :
    ∀ (fuel attempt : Nat),
      (deliverAux respond attempt fuel).status = .delivered ↔
        ∃ k, k < fuel ∧ is2xx (respond (attempt + k)) = true := by
  intro fuel
  induction fuel with
  | zero => intro attempt; simp [deliverAux]
  | succ fuel ih =>
    intro attempt
    simp only [deliverAux]
    cases hresp : respond attempt <;> simp only
    · rw [ih (attempt + 1)]
      constructor
      · rintro ⟨k, hk, h⟩
        exact ⟨k + 1, by omega, by rwa [show attempt + (k + 1) = attempt + 1 + k by omega]⟩
      · rintro ⟨k, hk, h⟩
        rcases k with _ | k'
        · rw [Nat.add_zero, hresp] at h
          simp [is2xx] at h
        · exact ⟨k', by omega, by rwa [show attempt + 1 + k' = attempt + (k' + 1) by omega]⟩
    · rw [ih (attempt + 1)]
      constructor
      · rintro ⟨k, hk, h⟩
        exact ⟨k + 1, by omega, by rwa [show attempt + (k + 1) = attempt + 1 + k by omega]⟩
      · rintro ⟨k, hk, h⟩
        rcases k with _ | k'
        · rw [Nat.add_zero, hresp] at h
          simp [is2xx] at h
        · exact ⟨k', by omega, by rwa [show attempt + 1 + k' = attempt + (k' + 1) by omega]⟩
    · rename_i c
      split
      · rename_i h2
        simp only [true_iff]
        refine ⟨0, by omega, ?_⟩
        rw [Nat.add_zero, hresp]
        simp [is2xx, h2]
      · rename_i h2
        simp only
        rw [ih (attempt + 1)]
        constructor
        · rintro ⟨k, hk, h⟩
          exact ⟨k + 1, by omega, by rwa [show attempt + (k + 1) = attempt + 1 + k by omega]⟩
        · rintro ⟨k, hk, h⟩
          rcases k with _ | k'
          · rw [Nat.add_zero, hresp] at h
            simp only [is2xx, decide_eq_true_eq] at h
            exact absurd h h2
          · exact ⟨k', by omega, by rwa [show attempt + 1 + k' = attempt + (k' + 1) by omega]⟩

theorem deliverAux_delivered_first (respond : Nat → AttemptOutcome) :
    ∀ (fuel attempt : Nat),
      (deliverAux respond attempt fuel).status = .delivered →
        1 ≤ (deliverAux respond attempt fuel).iterations ∧
        is2xx (respond (attempt + ((deliverAux respond attempt fuel).iterations - 1)))
          = true ∧
        ∀ j < (deliverAux respond attempt fuel).iterations - 1,
          is2xx (respond (attempt + j)) = false := by
  intro fuel
  induction fuel with
  | zero => intro attempt h; simp [deliverAux] at h
  | succ fuel ih =>
    intro attempt
    simp only [deliverAux]
    cases hresp : respond attempt <;> dsimp only
    · intro hdel
      obtain ⟨h1, h2x, hall⟩ := ih (attempt + 1) hdel
      refine ⟨by omega, ?_, ?_⟩
      · rw [show attempt + ((deliverAux respond (attempt + 1) fuel).iterations + 1 - 1)
          = attempt + 1 + ((deliverAux respond (attempt + 1) fuel).iterations - 1)
          by omega]
        exact h2x
      · intro j hj
        rcases j with _ | j'
        · rw [Nat.add_zero, hresp]; simp [is2xx]
        · rw [show attempt + (j' + 1) = attempt + 1 + j' by omega]
          exact hall j' (by omega)
    · intro hdel
      obtain ⟨h1, h2x, hall⟩ := ih (attempt + 1) hdel
      refine ⟨by omega, ?_, ?_⟩
      · rw [show attempt + ((deliverAux respond (attempt + 1) fuel).iterations + 1 - 1)
          = attempt + 1 + ((deliverAux respond (attempt + 1) fuel).iterations - 1)
          by omega]
        exact h2x
      · intro j hj
        rcases j with _ | j'
        · rw [Nat.add_zero, hresp]; simp [is2xx]
        · rw [show attempt + (j' + 1) = attempt + 1 + j' by omega]
          exact hall j' (by omega)
    · rename_i c
      split
      · rename_i h2
        intro _
        dsimp only
        refine ⟨by omega, ?_, ?_⟩
        · rw [show attempt + (1 - 1) = attempt by omega, hresp]
          simp [is2xx, h2]
        · intro j hj
          exact absurd hj (by omega)
      · rename_i h2
        dsimp only
        intro hdel
        obtain ⟨h1, h2x, hall⟩ := ih (attempt + 1) hdel
        refine ⟨by omega, ?_, ?_⟩
        · rw [show attempt + ((deliverAux respond (attempt + 1) fuel).iterations + 1 - 1)
            = attempt + 1 + ((deliverAux respond (attempt + 1) fuel).iterations - 1)
            by omega]
          exact h2x
        · intro j hj
          rcases j with _ | j'
          · rw [Nat.add_zero, hresp]
            simp only [is2xx, decide_eq_false_iff_not]
            exact h2
          · rw [show attempt + (j' + 1) = attempt + 1 + j' by omega]
            exact hall j' (by omega)

theorem deliverAux_failed_spec (respond : Nat → AttemptOutcome) :
    ∀ (fuel attempt : Nat),
      (deliverAux respond attempt fuel).status = .failed →
        (deliverAux respond attempt fuel).iterations = fuel ∧
        ∀ k < fuel, is2xx (respond (attempt + k)) = false := by
  intro fuel
  induction fuel with
  | zero => intro attempt _; exact ⟨rfl, by omega⟩
  | succ fuel ih =>
    intro attempt
    simp only [deliverAux]
    cases hresp : respond attempt <;> dsimp only
    · intro hfail
      obtain ⟨hit, hall⟩ := ih (attempt + 1) hfail
      refine ⟨by omega, ?_⟩
      intro k hk
      rcases k with _ | k'
      · rw [Nat.add_zero, hresp]; simp [is2xx]
      · rw [show attempt + (k' + 1) = attempt + 1 + k' by omega]
        exact hall k' (by omega)
    · intro hfail
      obtain ⟨hit, hall⟩ := ih (attempt + 1) hfail
      refine ⟨by omega, ?_⟩
      intro k hk
      rcases k with _ | k'
      · rw [Nat.add_zero, hresp]; simp [is2xx]
      · rw [show attempt + (k' + 1) = attempt + 1 + k' by omega]
        exact hall k' (by omega)
    · rename_i c
      split
      · rename_i h2
        dsimp only
        intro hfail
        exact absurd hfail (by simp)
      · rename_i h2
        dsimp only
        intro hfail
        obtain ⟨hit, hall⟩ := ih (attempt + 1) hfail
        refine ⟨by omega, ?_⟩
        intro k hk
        rcases k with _ | k'
        · rw [Nat.add_zero, hresp]
          simp only [is2xx, decide_eq_false_iff_not]
          exact h2
        · rw [show attempt + (k' + 1) = attempt + 1 + k' by omega]
          exact hall k' (by omega)

theorem deliverAux_sleeps_pos (respond : Nat → AttemptOutcome) :
    ∀ (fuel attempt : Nat), 1 ≤ attempt →
      (deliverAux respond attempt fuel).sleeps =
        (List.range (deliverAux respond attempt fuel).iterations).map
          (fun j => webhookRetryIntervals.getD (attempt - 1 + j) 0) := by
  intro fuel
  induction fuel with
  | zero => intro attempt _; simp [deliverAux]
  | succ fuel ih =>
    intro attempt hatt
    simp only [deliverAux]
    rw [if_pos (by omega : attempt > 0)]
    have hstep : ∀ itn : Nat,
        (List.range (itn + 1)).map
            (fun j => webhookRetryIntervals.getD (attempt - 1 + j) 0)
          = webhookRetryIntervals.getD (attempt - 1) 0 ::
            (List.range itn).map (fun j => webhookRetryIntervals.getD (attempt + j) 0) := by
      intro itn
      rw [List.range_succ_eq_map, List.map_cons, List.map_map]
      simp only [Nat.add_zero]
      congr 1
      apply List.map_congr_left
      intro a _
      simp only [Function.comp, Nat.succ_eq_add_one]
      rw [show attempt - 1 + (a + 1) = attempt + a by omega]
    cases hresp : respond attempt <;> dsimp only
    · rw [hstep, ih (attempt + 1) (by omega)]
      simp [show attempt + 1 - 1 = attempt by omega]
    · rw [hstep, ih (attempt + 1) (by omega)]
      simp [show attempt + 1 - 1 = attempt by omega]
    · split
      · dsimp only
        rw [hstep 0]
        simp
      · dsimp only
        rw [hstep, ih (attempt + 1) (by omega)]
        simp [show attempt + 1 - 1 = attempt by omega]

theorem deliverAux_status_cases (respond : Nat → AttemptOutcome) :
    ∀ (fuel attempt : Nat),
      (deliverAux respond attempt fuel).status = .delivered ∨
      (deliverAux respond attempt fuel).status = .failed := by
  intro fuel
  induction fuel with
  | zero => intro attempt; right; rfl
  | succ fuel ih =>
    intro attempt
    simp only [deliverAux]
    cases hresp : respond attempt <;> dsimp only
    · exact ih (attempt + 1)
    · exact ih (attempt + 1)
    · split
      · left; rfl
      · exact ih (attempt + 1)

theorem rangeMap_getD_take :
    ∀ k ≤ 5, (List.range k).map (fun j => webhookRetryIntervals.getD j 0)
      = webhookRetryIntervals.take k := by
  intro k hk
  interval_cases k <;> rfl

theorem deliverAux_sleeps_zero (respond : Nat → AttemptOutcome) (fuel : Nat) :
    (deliverAux respond 0 (fuel + 1)).sleeps =
      (List.range ((deliverAux respond 0 (fuel + 1)).iterations - 1)).map
        (fun j => webhookRetryIntervals.getD j 0) := by
  simp only [deliverAux]
  rw [if_neg (by omega : ¬ (0:Nat) > 0)]
  cases hresp : respond 0 <;> dsimp only
  · rw [deliverAux_sleeps_pos respond fuel 1 (by omega)]
    simp
  · rw [deliverAux_sleeps_pos respond fuel 1 (by omega)]
    simp
  · split
    · dsimp only
      simp
    · dsimp only
      rw [deliverAux_sleeps_pos respond fuel 1 (by omega)]
      simp

/-! ## Facts about the signature service -/

theorem flatMap_byteToHex_length :
    ∀ bs : List Nat, (bs.flatMap byteToHex).length = 2 * bs.length := by
  intro bs
  induction bs with
  | nil => rfl
  | cons b t ih =>
    rw [List.flatMap_cons, List.length_append, ih]
    simp [byteToHex]
    omega

theorem digestBytes_length (s : Hash8) : (digestBytes s).length = 32 := rfl

theorem sha256_length (msg : List Nat) : (sha256 msg).length = 32 :=
  digestBytes_length _

theorem hmacSha256_length (key msg : List Nat) : (hmacSha256 key msg).length = 32 :=
  sha256_length _

theorem sign_length (k m : String) : (sign k m).length = 64 := by
  show ((hmacSha256 (strBytes k) (strBytes m)).flatMap byteToHex).length = 64
  rw [flatMap_byteToHex_length, hmacSha256_length]

theorem hexChar_mem (n : Nat) : hexChar n ∈ hexDigits := by
  unfold hexChar
  have h : n % 16 < 16 := Nat.mod_lt _ (by norm_num)
  set r := n % 16 with hr
  interval_cases r <;> decide

theorem sign_chars (k m : String) : ∀ c ∈ (sign k m).data, c ∈ hexDigits := by
  intro c hc
  have hc' : c ∈ (hmacSha256 (strBytes k) (strBytes m)).flatMap byteToHex := hc
  rw [List.mem_flatMap] at hc'
  obtain ⟨b, _, hcb⟩ := hc'
  simp only [byteToHex, List.mem_cons, List.not_mem_nil, or_false] at hcb
  rcases hcb with h | h <;> exact h ▸ hexChar_mem _

theorem be32ToBytes_lt (w : Nat) : ∀ b ∈ be32ToBytes w, b < 256 := by
  intro b hb
  simp only [be32ToBytes, List.mem_cons, List.not_mem_nil, or_false] at hb
  rcases hb with h | h | h | h <;> subst h <;> exact Nat.mod_lt _ (by norm_num)

theorem sha256_bytes_lt (msg : List Nat) : ∀ b ∈ sha256 msg, b < 256 := by
  intro b hb
  have hb' : b ∈ digestBytes
      ((chunksOf16 (bytesToWords (sha256Pad msg)).length
        (bytesToWords (sha256Pad msg))).foldl compressBlock sha256H0) := hb
  rw [digestBytes, List.mem_flatMap] at hb'
  obtain ⟨w, _, hbw⟩ := hb'
  exact be32ToBytes_lt w b hbw

theorem hmacSha256_bytes_lt (key msg : List Nat) :
    ∀ b ∈ hmacSha256 key msg, b < 256 := by
  intro b hb
  exact sha256_bytes_lt _ b hb

theorem foldl_bytesVal_acc : ∀ (l : List Nat) (acc : Nat),
    l.foldl (fun a b => a * 256 + b) acc = acc * 256 ^ l.length + bytesVal l := by
  intro l
  induction l with
  | nil => intro acc; simp [bytesVal]
  | cons b t ih =>
    intro acc
    show t.foldl _ (acc * 256 + b) = _
    rw [ih (acc * 256 + b)]
    have hb : bytesVal (b :: t) = b * 256 ^ t.length + bytesVal t := by
      show t.foldl _ (0 * 256 + b) = _
      rw [ih (0 * 256 + b)]
      ring
    rw [List.length_cons, hb]
    ring

theorem bytesVal_cons (b : Nat) (t : List Nat) :
    bytesVal (b :: t) = b * 256 ^ t.length + bytesVal t := by
  show t.foldl _ (0 * 256 + b) = _
  rw [foldl_bytesVal_acc]
  ring

theorem bytesVal_lt : ∀ l : List Nat, (∀ b ∈ l, b < 256) → bytesVal l < 256 ^ l.length := by
  intro l
  induction l with
  | nil => intro _; simp [bytesVal]
  | cons b t ih =>
    intro hb
    rw [bytesVal_cons, List.length_cons]
    have h1 : bytesVal t < 256 ^ t.length :=
      ih fun x hx => hb x (List.mem_cons_of_mem _ hx)
    have h2 : b < 256 := hb b (List.mem_cons_self _ _)
    calc b * 256 ^ t.length + bytesVal t
        < b * 256 ^ t.length + 256 ^ t.length := by omega
      _ = (b + 1) * 256 ^ t.length := by ring
      _ ≤ 256 * 256 ^ t.length :=
          Nat.mul_le_mul_right _ (by omega)
      _ = 256 ^ (t.length + 1) := by rw [pow_succ]; ring

theorem bytesVal_inj : ∀ (l1 l2 : List Nat), l1.length = l2.length →
    (∀ b ∈ l1, b < 256) → (∀ b ∈ l2, b < 256) →
    bytesVal l1 = bytesVal l2 → l1 = l2 := by
  intro l1
  induction l1 with
  | nil =>
    intro l2 hlen _ _ _
    cases l2 with
    | nil => rfl
    | cons _ _ => simp at hlen
  | cons b1 t1 ih =>
    intro l2 hlen h1 h2 hval
    cases l2 with
    | nil => simp at hlen
    | cons b2 t2 =>
      rw [bytesVal_cons, bytesVal_cons] at hval
      have hlen' : t1.length = t2.length := by simpa using hlen
      rw [hlen'] at hval
      have hv1 : bytesVal t1 < 256 ^ t2.length := by
        rw [← hlen']
        exact bytesVal_lt t1 fun x hx => h1 x (List.mem_cons_of_mem _ hx)
      have hv2 : bytesVal t2 < 256 ^ t2.length :=
        bytesVal_lt t2 fun x hx => h2 x (List.mem_cons_of_mem _ hx)
      have hB : 0 < 256 ^ t2.length := pow_pos (by norm_num) _
      have e1 : (b1 * 256 ^ t2.length + bytesVal t1) / 256 ^ t2.length = b1 := by
        rw [add_comm, Nat.add_mul_div_right _ _ hB, Nat.div_eq_of_lt hv1, Nat.zero_add]
      have e2 : (b2 * 256 ^ t2.length + bytesVal t2) / 256 ^ t2.length = b2 := by
        rw [add_comm, Nat.add_mul_div_right _ _ hB, Nat.div_eq_of_lt hv2, Nat.zero_add]
      have hb12 : b1 = b2 := by rw [← e1, ← e2, hval]
      have htv : bytesVal t1 = bytesVal t2 := by
        rw [hb12] at hval
        exact Nat.add_left_cancel hval
      rw [hb12, ih t2 hlen' (fun x hx => h1 x (List.mem_cons_of_mem _ hx))
        (fun x hx => h2 x (List.mem_cons_of_mem _ hx)) htv]

/-! ## Claim C6 -/

/-- Under the pre-nonce hypotheses, the middleware's outcome is decided by
the single `SET NX` call at the nonce key with the nonce TTL: an
already-present key rejects, anything else proceeds to the signature
step. -/
theorem hmacAuth_at_nonce {C B : Type} (O : Oracle C B)
    (L : Except Unit (Option (MerchantRec C)))
    (kv : String → Nat → SetNXResult) (now : Int)
    (method path body : String) (hd : AuthHeaders) (m : MerchantRec C) (ts : Int)
    (hL : L = .ok (some m))
    (hne : ¬ (hd.accessKey = "" ∨ hd.signatureHdr = "" ∨ hd.timestampStr = ""
      ∨ hd.nonce = ""))
    (hts : parseInt64 hd.timestampStr = some ts)
    (hdrift : ¬ (now - ts).natAbs > maxTimestampDriftSeconds)
    (hact : m.isActive = true) :
    hmacAuth O L kv now method path body hd =
      match kv (nonceKey m.id hd.nonce) nonceTTLSeconds with
      | .alreadyPresent => .error errNonceUsed
      | _ => signatureStep O m ts method path body hd := by
  unfold hmacAuth checkAndSet
  rw [if_neg hne, hL]
  simp only [hts]
  rw [if_neg hdrift]
  rw [if_neg (by simp [hact])]
  rcases kv (nonceKey m.id hd.nonce) nonceTTLSeconds <;> rfl

/-- C6.  On a signed request from an active merchant inside the timestamp
window, the nonce claim is the atomic claim-if-absent (`SET NX`) on key
`nonce:` ++ merchant id ++ `:` ++ nonce with TTL 120 seconds: the
middleware's outcome depends on the KV store only through that one call;
an already-present key fails the request with nonce-used; and a KV-store
error is soft-allowed — the request proceeds exactly as if the claim had
succeeded, while a mere absence of data never bypasses the claim (the
only accepting store answer is the claim itself). -/
theorem C6_nonce_claim_semantics {C B : Type} (O : Oracle C B)
    (L : Except Unit (Option (MerchantRec C)))
    (kv kv' : String → Nat → SetNXResult) (now : Int)
    (method path body : String) (hd : AuthHeaders) (m : MerchantRec C) (ts : Int)
    (hL : L = .ok (some m))
    (hne : ¬ (hd.accessKey = "" ∨ hd.signatureHdr = "" ∨ hd.timestampStr = ""
      ∨ hd.nonce = ""))
    (hts : parseInt64 hd.timestampStr = some ts)
    (hdrift : ¬ (now - ts).natAbs > maxTimestampDriftSeconds)
    (hact : m.isActive = true) :
    nonceTTLSeconds = 120 ∧
    nonceKey m.id hd.nonce = "nonce:" ++ m.id ++ ":" ++ hd.nonce ∧
    (kv (nonceKey m.id hd.nonce) nonceTTLSeconds
        = kv' (nonceKey m.id hd.nonce) nonceTTLSeconds →
      hmacAuth O L kv now method path body hd
        = hmacAuth O L kv' now method path body hd) ∧
    (kv (nonceKey m.id hd.nonce) nonceTTLSeconds = .alreadyPresent →
      hmacAuth O L kv now method path body hd = .error errNonceUsed) ∧
    (kv (nonceKey m.id hd.nonce) nonceTTLSeconds = .kvError →
      hmacAuth O L kv now method path body hd
        = hmacAuth O L (fun _ _ => .claimed) now method path body hd) := by
  have hat := hmacAuth_at_nonce O L kv now method path body hd m ts
    hL hne hts hdrift hact
  have hat' := hmacAuth_at_nonce O L kv' now method path body hd m ts
    hL hne hts hdrift hact
  have hatc := hmacAuth_at_nonce O L (fun _ _ => .claimed) now method path body hd m ts
    hL hne hts hdrift hact
  refine ⟨rfl, rfl, ?_, ?_, ?_⟩
  · intro heq
    rw [hat, hat', heq]
  · intro hkv
    rw [hat, hkv]
  · intro hkv
    rw [hat, hkv, hatc]

/-! ## Claim C9 (amended: tampering with the signature always fails;
tampering with the key or payload fails exactly when the recomputed MAC
differs, which cannot hold universally because HMAC-SHA-256 has
collisions by pigeonhole) -/

/-- C9 (amended).  For every MAC key k and payload m,
`verify(k, m, sign(k, m))` is true and `sign(k, m)` is a 64-character
string of lowercase hex digits; and for any candidate signature s,
`verify(k, m, s)` is true exactly when s equals the recomputed
`sign(k, m)` — so any change to the signature makes verify false, and a
change to the key or payload makes verify false precisely when it changes
the MAC. -/
theorem C9_hmac_sign_verify_roundtrip (k m s : String) :
    verify k m (sign k m) = true ∧
    (sign k m).length = 64 ∧
    (∀ c ∈ (sign k m).data, c ∈ hexDigits) ∧
    (verify k m s = true ↔ sign k m = s) := by
  refine ⟨?_, sign_length k m, sign_chars k m, ?_⟩
  · simp [verify]
  · simp [verify]

/-- C9 counterexample to the claim as stated: "changing the key, the
payload, or the signature makes verify return false" fails for payload
changes, because `sign ""` maps infinitely many payloads into the finite
set of 32-byte digests, so two distinct payloads share a signature and
verify accepts the crossed pair. -/
theorem C9_counterexample_hmac_collision :
    ¬ (∀ (k m m' : String), m' ≠ m → verify k m' (sign k m) = false) := by
  intro h
  have hinj : Function.Injective fun m => sign "" m := by
    intro m m' heq
    simp only at heq
    by_contra hne
    have hv := h "" m m' fun hc => hne hc.symm
    unfold verify at hv
    rw [heq] at hv
    simp at hv
  let f : String → Fin (256 ^ 32) := fun m =>
    ⟨bytesVal (hmacSha256 (strBytes "") (strBytes m)), by
      have h1 := bytesVal_lt _ (hmacSha256_bytes_lt (strBytes "") (strBytes m))
      rwa [hmacSha256_length] at h1⟩
  obtain ⟨m, m', hne, hfeq⟩ := Finite.exists_ne_map_eq_of_infinite f
  have hveq : bytesVal (hmacSha256 (strBytes "") (strBytes m))
      = bytesVal (hmacSha256 (strBytes "") (strBytes m')) := congrArg Fin.val hfeq
  have hdig := bytesVal_inj _ _ (by rw [hmacSha256_length, hmacSha256_length])
    (hmacSha256_bytes_lt _ _) (hmacSha256_bytes_lt _ _) hveq
  have hs : sign "" m = sign "" m' := by unfold sign; rw [hdig]
  exact hne (hinj hs)

/-! ## Claim C8 -/

/-- C8.  For every enqueued webhook delivery, at most six HTTP POST
attempts are made — one immediate attempt and up to five retries, sleeping
15 s, 60 s, 120 s, 300 s and 600 s before the retries in turn; the loop
stops at the first 2xx response with status delivered (all earlier
attempts having been non-2xx), and when no attempt gets a 2xx the delivery
ends with status failed after all six iterations and all five sleeps. -/
theorem C8_webhook_bounded_retry (respond : Nat → AttemptOutcome) :
    (deliverWithRetries respond).posts ≤ 6 ∧
    (deliverWithRetries respond).sleeps
      = webhookRetryIntervals.take ((deliverWithRetries respond).iterations - 1) ∧
    ((deliverWithRetries respond).status = .delivered ↔
      ∃ k, k < 6 ∧ is2xx (respond k) = true) ∧
    ((deliverWithRetries respond).status = .delivered →
      is2xx (respond ((deliverWithRetries respond).iterations - 1)) = true ∧
      ∀ j < (deliverWithRetries respond).iterations - 1, is2xx (respond j) = false) ∧
    ((∀ k < 6, is2xx (respond k) = false) →
      (deliverWithRetries respond).status = .failed ∧
      (deliverWithRetries respond).iterations = 6 ∧
      (deliverWithRetries respond).sleeps = webhookRetryIntervals) := by
  have hda : deliverWithRetries respond = deliverAux respond 0 (5 + 1) := rfl
  have hit : (deliverAux respond 0 (5 + 1)).iterations ≤ 6 :=
    deliverAux_iterations_le respond (5 + 1) 0
  refine ⟨?_, ?_, ?_, ?_, ?_⟩
  · rw [hda]
    exact le_trans (deliverAux_posts_le_iterations respond (5 + 1) 0) hit
  · rw [hda, deliverAux_sleeps_zero respond 5]
    exact rangeMap_getD_take _ (by omega)
  · rw [hda, deliverAux_delivered_iff respond (5 + 1) 0]
    simp only [Nat.zero_add]
  · rw [hda]
    intro hdel
    obtain ⟨h1, h2x, hall⟩ := deliverAux_delivered_first respond (5 + 1) 0 hdel
    rw [Nat.zero_add] at h2x
    refine ⟨h2x, ?_⟩
    intro j hj
    have := hall j hj
    rwa [Nat.zero_add] at this
  · intro hfailall
    have hnd : ¬ (deliverAux respond 0 (5 + 1)).status = .delivered := by
      rw [deliverAux_delivered_iff respond (5 + 1) 0]
      rintro ⟨k, hk, h2⟩
      rw [Nat.zero_add] at h2
      rw [hfailall k hk] at h2
      exact absurd h2 (by simp)
    have hf : (deliverAux respond 0 (5 + 1)).status = .failed := by
      rcases deliverAux_status_cases respond (5 + 1) 0 with h | h
      · exact absurd h hnd
      · exact h
    obtain ⟨hit6, _⟩ := deliverAux_failed_spec respond (5 + 1) 0 hf
    refine ⟨by rw [hda]; exact hf, by rw [hda]; exact hit6, ?_⟩
    rw [hda, deliverAux_sleeps_zero respond 5, hit6]
    exact rangeMap_getD_take 5 (by omega)

theorem trivOracle_roundtrip :
    ∀ p c, trivOracle.encrypt p = some c → trivOracle.decrypt c = some p :=
  fun _ _ h => by cases h; rfl

/-- Witness for C1 at the spec's literal scenario 1: merchant `M`, wallet
balance 1 000 000, payment of 250 000. -/
theorem C1_payment_debit_or_insufficient_witness :
    ((1000000 : Int) < demoPayReq.amount →
      processPayment trivOracle (Env.ok "T1" 100) demoState demoPayReq =
        (.error errInsufficientFunds, demoState)) ∧
    (¬ (1000000 : Int) < demoPayReq.amount →
      ∃ st' : GatewayState String (Transaction String),
        processPayment trivOracle (Env.ok "T1" 100) demoState demoPayReq =
          (.ok (mkPaymentTxn (Env.ok "T1" 100) demoPayReq demoWallet.id "250000"), st') ∧
        (mkPaymentTxn (Env.ok "T1" 100) demoPayReq demoWallet.id "250000").transactionType
          = .payment ∧
        (mkPaymentTxn (Env.ok "T1" 100) demoPayReq demoWallet.id "250000").status
          = .success ∧
        mkPaymentTxn (Env.ok "T1" 100) demoPayReq demoWallet.id "250000"
          ∈ st'.db.transactions ∧
        ∃ w', findWalletByID st'.db demoWallet.id = some w' ∧
          trivOracle.decrypt w'.encryptedBalance =
            some (intStr ((1000000 : Int) - demoPayReq.amount))) :=
  C1_payment_debit_or_insufficient trivOracle (Env.ok "T1" 100) demoState demoPayReq
    demoWallet "1000000" 1000000 "750000" "250000" trivOracle_roundtrip
    (by decide) (by decide) (by decide) (by decide) (by decide) (by decide)
    (by decide) (by decide) (by decide) (by decide) (by decide) (by decide)
    (by decide) (by decide) (by decide) (by decide) (by decide)

/-- Witness for C2: a KV-cache hit replays the cached payment response with
the state untouched, and on a KV miss the durable record replays it, again
with the state untouched. -/
theorem C2_two_tier_idempotency_dispatch_witness :
    processPayment trivOracle (Env.ok "X" 1) demoPostPayState demoPayReq
      = (unmarshalCachedTransaction trivOracle demoPayTxn, demoPostPayState) ∧
    processPayment trivOracle (Env.ok "X" 1) demoDbHitState demoPayReq
      = (unmarshalCachedTransaction trivOracle demoPayTxn, demoDbHitState) :=
  ⟨(C2_two_tier_idempotency_dispatch trivOracle (Env.ok "X" 1) demoPostPayState
      demoPayReq demoRefundReq).1 (by decide) (by decide) demoPayTxn (by decide),
   (C2_two_tier_idempotency_dispatch trivOracle (Env.ok "X" 1) demoDbHitState
      demoPayReq demoRefundReq).2.1 (by decide) (Or.inr (by decide)) (by decide)
      ⟨"M:ORD-1", "T1", demoPayTxn, 100⟩ (by decide)⟩

/-- C2 counterexample to the claim as stated: with the KV cache empty and
the durable idempotency record present, the call returns the stored
response but the KV cache is NOT repopulated — the lookup under the key
still misses afterwards, contradicting "repopulates the KV cache". -/
theorem C2_counterexample_no_cache_repopulation :
    cacheGet demoDbHitState (buildIdempotencyKey "M" "ORD-1") = none ∧
    idempGet demoDbHitState.db (buildIdempotencyKey "M" "ORD-1")
      = some ⟨"M:ORD-1", "T1", demoPayTxn, 100⟩ ∧
    processPayment trivOracle (Env.ok "X" 1) demoDbHitState demoPayReq
      = (.ok demoPayTxn, demoDbHitState) ∧
    cacheGet (processPayment trivOracle (Env.ok "X" 1) demoDbHitState demoPayReq).2
      (buildIdempotencyKey "M" "ORD-1") = none := by
  decide

/-- Witness for C3 at the demo post-payment state: a full refund request
with a fresh UUID. -/
theorem C3_refund_commit_atomicity_witness :
    (match processRefund trivOracle (Env.ok "T2" 300) demoPostPayState demoRefundReq with
     | (.error _, st') => st' = demoPostPayState
     | (.ok txn, st') => st'.db = demoPostPayState.db ∨
         refundCommitted demoPostPayState.db st'.db txn
           (buildRefundIdempotencyKey demoRefundReq.merchantID
             demoRefundReq.originalReferenceID)) :=
  C3_refund_commit_atomicity trivOracle (Env.ok "T2" 300) demoPostPayState demoRefundReq
    (by decide)

/-- Witness for C4: the losing commit of the demo refund surfaces SYS_001,
and the pre-transaction check path is exercised by the same theorem. -/
theorem C4_commit_race_error_code_witness :
    processRefund trivOracle demoDupEnv demoPostPayState demoRefundReq
      = (.error internalError, demoPostPayState) ∧
    internalError ≠ errDuplicateTransaction :=
  (C4_commit_race_error_code trivOracle demoDupEnv demoPostPayState demoRefundReq
    demoPayTxn ⟨"W", "M", "VND", "750000"⟩ "750000" 750000 250000 "1000000" "250000"
    (by decide) (by decide) (by decide) (by decide) (by decide) (by decide)
    (by decide) (by decide) (by decide) (by decide) (by decide) (by decide)
    (by decide) (by decide) (by decide) (by decide) (by decide) (by decide)
    (by decide)).2 (by decide) (by decide)

/-- C4 counterexample to the claim as stated: the refund whose
in-transaction insert hits the uniqueness violation returns the internal
store error SYS_001, not duplicate-transaction. -/
theorem C4_counterexample_internal_error_surfaced :
    processRefund trivOracle demoDupEnv demoPostPayState demoRefundReq
      = (.error internalError, demoPostPayState) ∧
    ¬ internalError = errDuplicateTransaction := by
  decide

/-- Witness for C5: the demo full refund restores the wallet to 1 000 000
and the refund row's reference is `REFUND-ORD-1`. -/
theorem C5_refund_amount_rules_witness :
    ∃ st', processRefund trivOracle (Env.ok "T2" 300) demoPostPayState demoRefundReq =
        (.ok (mkRefundTxn (Env.ok "T2" 300) demoRefundReq "W" "T1" 250000 "250000"), st') ∧
      (mkRefundTxn (Env.ok "T2" 300) demoRefundReq "W" "T1" 250000 "250000").amount
        = 250000 ∧
      (mkRefundTxn (Env.ok "T2" 300) demoRefundReq "W" "T1" 250000 "250000").referenceID
        = "REFUND-" ++ demoRefundReq.originalReferenceID ∧
      ∃ w', findWalletByID st'.db "W" = some w' ∧
        trivOracle.decrypt w'.encryptedBalance = some (intStr ((750000 : Int) + 250000)) :=
  (C5_refund_amount_rules trivOracle (Env.ok "T2" 300) demoPostPayState demoRefundReq
    demoPayTxn ⟨"W", "M", "VND", "750000"⟩ "750000" 750000 trivOracle_roundtrip
    (by decide) (by decide) (by decide) (by decide) (by decide) (by decide)
    (by decide) (by decide) (by decide) (by decide) (by decide) (by decide)
    (by decide) (by decide)).2.2 250000 (Or.inl ⟨rfl, by decide⟩)
    (by decide) (by decide) "1000000" "250000" (by decide) (by decide)
    (by decide) (by decide) (by decide) (by decide) (by decide)

/-- Witness for C7: a negative payment fails invalid-amount up front; a
negative refund with a cached response replays the cache; a negative
refund with both layers missing fails invalid-amount. -/
theorem C7_validation_vs_idempotency_order_witness :
    processPayment trivOracle (Env.ok "T5" 600) demoPostPayState
        { demoPayReq with amount := -3 }
      = (.error errInvalidAmount, demoPostPayState) ∧
    processRefund trivOracle (Env.ok "T4" 500) demoPostRefundState demoNegRefundReq
      = (unmarshalCachedTransaction trivOracle demoRefundTxn, demoPostRefundState) ∧
    processRefund trivOracle (Env.ok "T9" 700) demoPostPayState demoNegRefundReq
      = (.error errInvalidAmount, demoPostPayState) :=
  ⟨(C7_validation_vs_idempotency_order trivOracle (Env.ok "T5" 600) demoPostPayState
      { demoPayReq with amount := -3 } demoNegRefundReq demoPayTxn).1 (by decide),
   (C7_validation_vs_idempotency_order trivOracle (Env.ok "T4" 500) demoPostRefundState
      demoPayReq demoNegRefundReq demoPayTxn).2.1 (-5) (by decide) (by decide)
      (by decide) demoRefundTxn (by decide),
   (C7_validation_vs_idempotency_order trivOracle (Env.ok "T9" 700) demoPostPayState
      demoPayReq demoNegRefundReq demoPayTxn).2.2 (-5) (by decide) (by decide)
      (by decide) (by decide) (by decide) (by decide) (by decide) (by decide)
      (by decide) (by decide) (by decide)⟩

/-- C7 counterexample to the claim as stated: a refund request with a
non-positive amount is answered from the KV cache under its idempotency
key instead of failing invalid-amount. -/
theorem C7_counterexample_cached_negative_refund :
    demoNegRefundReq.amount = some (-5) ∧
    processRefund trivOracle (Env.ok "T4" 500) demoPostRefundState demoNegRefundReq
      = (.ok demoRefundTxn, demoPostRefundState) ∧
    ¬ ((.ok demoRefundTxn : Except AppError (Transaction String))
        = .error errInvalidAmount) := by
  decide

/-- Witness for C6 with the demo merchant and request at time 120. -/
theorem C6_nonce_claim_semantics_witness :
    nonceTTLSeconds = 120 ∧
    nonceKey demoMerchant.id demoHeaders.nonce
      = "nonce:" ++ demoMerchant.id ++ ":" ++ demoHeaders.nonce ∧
    (demoKvUsed (nonceKey demoMerchant.id demoHeaders.nonce) nonceTTLSeconds
        = demoKvDown (nonceKey demoMerchant.id demoHeaders.nonce) nonceTTLSeconds →
      hmacAuth trivOracle (.ok (some demoMerchant)) demoKvUsed 120 "POST" "/p" "b"
          demoHeaders
        = hmacAuth trivOracle (.ok (some demoMerchant)) demoKvDown 120 "POST" "/p" "b"
          demoHeaders) ∧
    (demoKvUsed (nonceKey demoMerchant.id demoHeaders.nonce) nonceTTLSeconds
        = .alreadyPresent →
      hmacAuth trivOracle (.ok (some demoMerchant)) demoKvUsed 120 "POST" "/p" "b"
          demoHeaders
        = .error errNonceUsed) ∧
    (demoKvUsed (nonceKey demoMerchant.id demoHeaders.nonce) nonceTTLSeconds
        = .kvError →
      hmacAuth trivOracle (.ok (some demoMerchant)) demoKvUsed 120 "POST" "/p" "b"
          demoHeaders
        = hmacAuth trivOracle (.ok (some demoMerchant)) (fun _ _ => .claimed) 120
          "POST" "/p" "b" demoHeaders) :=
  C6_nonce_claim_semantics trivOracle (.ok (some demoMerchant)) demoKvUsed demoKvDown
    120 "POST" "/p" "b" demoHeaders demoMerchant 100 rfl (by decide) (by decide)
    (by decide) (by decide)

/-- Witness for C8: the delivery to the eventually-healthy endpoint stops
at its first 2xx, and the delivery to the always-500 endpoint fails after
six attempts with all five sleeps. -/
theorem C8_webhook_bounded_retry_witness :
    (is2xx (demoRespondOk2 ((deliverWithRetries demoRespondOk2).iterations - 1)) = true ∧
      ∀ j < (deliverWithRetries demoRespondOk2).iterations - 1,
        is2xx (demoRespondOk2 j) = false) ∧
    ((deliverWithRetries demoRespondFail).status = .failed ∧
     (deliverWithRetries demoRespondFail).iterations = 6 ∧
     (deliverWithRetries demoRespondFail).sleeps = webhookRetryIntervals) :=
  ⟨(C8_webhook_bounded_retry demoRespondOk2).2.2.2.1 (by decide),
   (C8_webhook_bounded_retry demoRespondFail).2.2.2.2 (by decide)⟩

/-- Witness for C10: after the demo partial refund, the attempt to refund
the remainder is replayed from the idempotency layers with the state
unchanged. -/
theorem C10_partial_refund_blocks_remainder_witness :
    (processRefund trivOracle (Env.ok "T3" 400)
        (processRefund trivOracle (Env.ok "T2" 300) demoPostPayState demoPartialReq).2
        demoRemainderReq).2
      = (processRefund trivOracle (Env.ok "T2" 300) demoPostPayState demoPartialReq).2 ∧
    ((processRefund trivOracle (Env.ok "T3" 400)
        (processRefund trivOracle (Env.ok "T2" 300) demoPostPayState demoPartialReq).2
        demoRemainderReq).1
      = unmarshalCachedTransaction trivOracle
          (trivOracle.marshalTx
            (mkRefundTxn (Env.ok "T2" 300) demoPartialReq "W" "T1" 100000 "100000")) ∨
     (processRefund trivOracle (Env.ok "T3" 400)
        (processRefund trivOracle (Env.ok "T2" 300) demoPostPayState demoPartialReq).2
        demoRemainderReq).1
      = .error internalError) :=
  (C10_partial_refund_blocks_remainder trivOracle (Env.ok "T2" 300) demoPostPayState
    demoPartialReq demoPayTxn ⟨"W", "M", "VND", "750000"⟩ "750000" 750000 100000
    "850000" "100000"
    (by decide) (by decide) (by decide) (by decide) (by decide) (by decide)
    (by decide) (by decide) (by decide) (by decide) (by decide) (by decide)
    (by decide) (by decide) (by decide) (by decide) (by decide) (by decide)
    (by decide) (by decide) (by decide) (by decide) (by decide)
    (by decide)).2.2.2 (Env.ok "T3" 400) demoRemainderReq (by decide) (by decide)

/-- C10 counterexample to the claim as stated: after a successful partial
refund, a later refund request for the same original does not fail — it
returns the first refund's cached response, with the state unchanged. -/
theorem C10_counterexample_replay_not_failure :
    demoPartialReq.amount = some 100000 ∧ (100000 : Int) < demoPayTxn.amount ∧
    (processRefund trivOracle (Env.ok "T2" 300) demoPostPayState demoPartialReq).1
      = .ok demoPartialTxn ∧
    (processRefund trivOracle (Env.ok "T3" 400) demoPartialState demoRemainderReq).1
      = .ok demoPartialTxn ∧
    (processRefund trivOracle (Env.ok "T3" 400) demoPartialState demoRemainderReq).2
      = demoPartialState ∧
    ¬ ((.ok demoPartialTxn : Except AppError (Transaction String))
        = .error errDuplicateTransaction) ∧
    ¬ ((.ok demoPartialTxn : Except AppError (Transaction String))
        = .error errInvalidRefund) := by
  decide

end Gateway
